import Mathlib

set_option maxHeartbeats 1000000

/-!
Verification development for the NXdata interpretation engine
(`silx/io/nxdata.py`): a validator (`is_valid_NXdata`) over h5py-like
groups, and a derived view (`NXdata`) exposing signal, axes, axis names,
uncertainties and scatter classification.

The embedding models an h5py-like group as a finite association list of
attributes (string / string-list / integer values) and children (datasets
or sub-groups).  Attribute reads return values (h5py attribute access
returns copies).  Fallible Python code (KeyError, TypeError,
AssertionError, IndexError raised and propagated) is embedded in
`Except Err`; the validator's warn-and-return-False sites are embedded as
`Except.ok (some reason)` with one `VReason` constructor per distinct
warning site of the source, so `Except.ok none` means `return True`.
-/

namespace NX

/-- Attribute values: a string, a list of strings, or an integer
(mirrors the value shapes the source distinguishes via `isinstance`). -/
inductive AttrVal where
  | s (v : String)
  | ls (vs : List String)
  | i (v : Int)
deriving DecidableEq, Repr

abbrev Attrs := List (String × AttrVal)

/-- First-match association-list lookup (dict-style access). -/
def alookup {α : Type} : List (String × α) → String → Option α
  | [], _ => none
  | (k, v) :: rest, k0 => if k = k0 then some v else alookup rest k0

/-- A dataset: a shape, attributes, and flattened numeric content. -/
structure Dataset where
  shape : List Nat
  attrs : Attrs
  data : List Int
deriving DecidableEq, Repr

/-- A child of a group: a dataset or a sub-group. -/
inductive Node where
  | ds (d : Dataset)
  | sub (attrs : Attrs) (children : List (String × Node))
deriving Repr

/-- An h5py-like group: attributes plus named children. -/
structure Group where
  attrs : Attrs
  children : List (String × Node)
deriving Repr

def Group.attr (g : Group) (k : String) : Option AttrVal := alookup g.attrs k

def Group.child (g : Group) (k : String) : Option Node := alookup g.children k

def Node.nattrs : Node → Attrs
  | Node.ds d => d.attrs
  | Node.sub a _ => a

/-- Mirrors `silx.io.utils.is_dataset`. -/
def is_dataset : Node → Bool
  | Node.ds _ => true
  | Node.sub _ _ => false

/-- The fixed `INTERPDIM` table of the source (`None` for unknown keys,
whose lookup raises `KeyError` at the call sites). -/
def INTERPDIM : String → Option Nat
  | "scalar" => some 0
  | "spectrum" => some 1
  | "image" => some 2
  | "vertex" => some 1
  | _ => none

/-- `signal_size = product(signal.shape)` — mirrors the source's
running-product loops over `.shape` (empty shape gives 1). -/
def listProd (l : List Nat) : Nat := l.foldl (· * ·) 1

/-- Python exceptions that the source can raise (and propagate). -/
inductive Err where
  | typeError (msg : String)
  | keyError (msg : String)
  | indexError
  | assertionError
  | attributeError
  | axisKeyNotFound (name : String)   -- the "does not contain a dataset named" KeyError
  | axesNotMention (name : String)    -- the "@axes does not mention" KeyError
  | notValidNXdata                    -- the TypeError raised by NXdata.__init__
deriving DecidableEq, Repr

/-- One constructor per distinct warn-and-return-False site of
`is_valid_NXdata`. -/
inductive VReason where
  | notNXdata
  | noSignalAttr
  | signalNotFound (name : String)
  | moreAxes (nAxes ndim : Nat)
  | noInterpretation
  | badInterpretation (interp : String)
  | interpAxesCount (ndim : Nat) (interp : String)
  | uncertaintiesLen
  | axisNotFound (name : String)
  | axisNdShape (name : String)
  | axisLenMismatch (name : String)
  | axisScatterInconsistent (name : String)
  | axisErrorsShape (errorsName axisName : String)
  | errorsShape
deriving DecidableEq, Repr

/-- Normalization of a string-or-list attribute to a name list
(`if isinstance(x, str): x = [x]`); an integer-valued attribute makes the
subsequent `len()` call raise `TypeError`. -/
def normalizeNames : AttrVal → Except Err (List String)
  | AttrVal.s v => Except.ok [v]
  | AttrVal.ls vs => Except.ok vs
  | AttrVal.i _ => Except.error (Err.typeError "len")

/-- `attrs.get(k, d)` for an integer attribute; a present non-integer
value makes the later integer arithmetic raise `TypeError`. -/
def getIntAttrD (a : Attrs) (k : String) (d : Int) : Except Err Int :=
  match alookup a k with
  | none => Except.ok d
  | some (AttrVal.i n) => Except.ok n
  | some _ => Except.error (Err.typeError k)

/-- `interpretation` resolution order of the source: the signal's
attribute first, then the group's. -/
def interpOf (g : Group) (sig : Dataset) : Option AttrVal :=
  match alookup sig.attrs "interpretation" with
  | some v => some v
  | none => Group.attr g "interpretation"

/-- `uncertainties` resolution order of the validator: the group's
attribute first, then the signal's. -/
def uncOf (g : Group) (sig : Dataset) : Option AttrVal :=
  match Group.attr g "uncertainties" with
  | some v => some v
  | none => alookup sig.attrs "uncertainties"

/-- The `axis_len` computation of the validator's per-axis loop: for a
1-D axis, `last_good + 1 - first_good` with defaults `0` and
`len(axis) - 1`; otherwise the axis's total element count. -/
def axisLenDs (axis : Dataset) : Except Err Int :=
  match axis.shape with
  | [n] =>
    match getIntAttrD axis.attrs "first_good" 0 with
    | Except.error e => Except.error e
    | Except.ok fg =>
      match getIntAttrD axis.attrs "last_good" ((n : Int) - 1) with
      | Except.error e => Except.error e
      | Except.ok lg => Except.ok (lg + 1 - fg)
  | _ => Except.ok ((listProd axis.shape : Nat) : Int)

/-- `axis_len` of the child named `name`: `none` when the child is
missing or not a dataset. -/
def axisLenOf (g : Group) (name : String) : Except Err (Option Int) :=
  match Group.child g name with
  | some (Node.ds axis) =>
    match axisLenDs axis with
    | Except.error e => Except.error e
    | Except.ok l => Except.ok (some l)
  | _ => Except.ok none

/-- Outcome of one iteration of the validator's per-axis loop: a failure
reason, or continue with the updated `is_scatter` flag and
`polynomial_axes_names` list. -/
inductive StepRes where
  | fail (r : VReason)
  | cont (sc : Bool) (poly : List String)
deriving DecidableEq, Repr

/-- Lines 165-182 of the source: compare `axis_len` with `signal_size`,
allow signal-dimension / constant / linear axes (recording polynomial
axes), and reject a signal-sized axis once scatter-ness is broken. -/
def sizeCheck (sigShape : List Nat) (signalSize : Nat) (name : String)
    (axisLen : Int) (sc : Bool) (poly : List String) : StepRes :=
  if axisLen ≠ (signalSize : Int) then
    if axisLen ∉ sigShape.map (fun n => (n : Int)) ++ [(1 : Int), 2] then
      StepRes.fail (VReason.axisLenMismatch name)
    else
      let poly1 := if axisLen = 1 ∨ axisLen = 2 then poly ++ [name] else poly
      StepRes.cont false poly1
  else
    if sc = false then StepRes.fail (VReason.axisScatterInconsistent name)
    else StepRes.cont sc poly

/-- Lines 184-193 of the source: the per-axis uncertainty check.  It
applies only when `<axis_name>_errors` is *not* a child and
`@uncertainties` resolved; the `@uncertainties`-indexed dataset, if it
exists and the axis is not polynomial, must have the axis's shape. -/
def uncertaintyCheck (g : Group) (unc : Option (List String)) (name : String)
    (i : Nat) (axis : Dataset) (sc : Bool) (poly : List String) :
    Except Err StepRes :=
  match Group.child g (name ++ "_errors"), unc with
  | none, some us =>
    match us.get? i with
    | none => Except.error Err.indexError
    | some en =>
      match Group.child g en with
      | none => Except.ok (StepRes.cont sc poly)
      | some node =>
        if name ∈ poly then Except.ok (StepRes.cont sc poly)
        else
          match node with
          | Node.ds e =>
            if e.shape ≠ axis.shape then
              Except.ok (StepRes.fail (VReason.axisErrorsShape en name))
            else Except.ok (StepRes.cont sc poly)
          | Node.sub _ _ => Except.error Err.attributeError
  | _, _ => Except.ok (StepRes.cont sc poly)

/-- The tail of one loop iteration: the size consistency check followed
(on survival) by the uncertainty check. -/
def axisStepTail (g : Group) (sigShape : List Nat) (signalSize : Nat)
    (unc : Option (List String)) (name : String) (i : Nat) (axis : Dataset)
    (axisLen : Int) (sc : Bool) (poly : List String) : Except Err StepRes :=
  match sizeCheck sigShape signalSize name axisLen sc poly with
  | StepRes.fail r => Except.ok (StepRes.fail r)
  | StepRes.cont sc1 poly1 => uncertaintyCheck g unc name i axis sc1 poly1

/-- One iteration of the validator's per-axis loop (lines 140-193).
An n-D axis whose total element count differs from the signal's is
rejected before any size classification. -/
def axisStep (g : Group) (sigShape : List Nat) (signalSize : Nat)
    (unc : Option (List String)) (name : String) (i : Nat)
    (sc : Bool) (poly : List String) : Except Err StepRes :=
  if name = "." then Except.ok (StepRes.cont sc poly)
  else
    match Group.child g name with
    | none => Except.ok (StepRes.fail (VReason.axisNotFound name))
    | some (Node.sub _ _) => Except.ok (StepRes.fail (VReason.axisNotFound name))
    | some (Node.ds axis) =>
      match axisLenDs axis with
      | Except.error e => Except.error e
      | Except.ok axisLen =>
        if axis.shape.length ≠ 1 ∧ axisLen ≠ (signalSize : Int) then
          Except.ok (StepRes.fail (VReason.axisNdShape name))
        else axisStepTail g sigShape signalSize unc name i axis axisLen sc poly

/-- The validator's per-axis loop with its running index (`enumerate`),
`is_scatter` flag and `polynomial_axes_names` accumulator. -/
def checkAxes (g : Group) (sigShape : List Nat) (signalSize : Nat)
    (unc : Option (List String)) :
    List String → Nat → Bool → List String → Except Err (Option VReason)
  | [], _, _, _ => Except.ok none
  | name :: rest, i, sc, poly =>
    match axisStep g sigShape signalSize unc name i sc poly with
    | Except.error e => Except.error e
    | Except.ok (StepRes.fail r) => Except.ok (some r)
    | Except.ok (StepRes.cont sc1 poly1) =>
      checkAxes g sigShape signalSize unc rest (i + 1) sc1 poly1

/-- Lines 196-200 of the source: a top-level `"errors"` child that is a
dataset must have the signal's shape. -/
def validateErrorsPart (g : Group) (sig : Dataset) : Except Err (Option VReason) :=
  match Group.child g "errors" with
  | some (Node.ds e) =>
    if e.shape ≠ sig.shape then Except.ok (some VReason.errorsShape)
    else Except.ok none
  | _ => Except.ok none

/-- Lines 102-120 of the source: with fewer `@axes` than dimensions, a
recognized `@interpretation` must fix the exact axis count.  A
non-string interpretation value makes the source raise (`TypeError` in
the warning's string concatenation, or an unhashable `in` test). -/
def interpCountCheck (g : Group) (sig : Dataset) (ndim nNames : Nat) :
    Except Err (Option VReason) :=
  if ndim > nNames then
    match interpOf g sig with
    | none => Except.ok (some VReason.noInterpretation)
    | some (AttrVal.s s) =>
      match INTERPDIM s with
      | none => Except.ok (some (VReason.badInterpretation s))
      | some d =>
        if nNames ≠ d then Except.ok (some (VReason.interpAxesCount ndim s))
        else Except.ok none
    | some _ => Except.error (Err.typeError "interpretation")
  else Except.ok none

/-- Lines 122-132 of the source: `@uncertainties`, when present, must
list as many names as `@axes`. -/
def uncertaintiesPart (g : Group) (sig : Dataset) (axesNames : List String) :
    Except Err (Option (Option (List String))) :=
  match uncOf g sig with
  | none => Except.ok (some none)
  | some uv =>
    match normalizeNames uv with
    | Except.error e => Except.error e
    | Except.ok us =>
      if us.length ≠ axesNames.length then Except.ok none
      else Except.ok (some (some us))

/-- Lines 87-193 of the source: the `@axes`-dependent part of the
validator, ending in the per-axis loop. -/
def validateAxesPart (g : Group) (sig : Dataset) : Except Err (Option VReason) :=
  match Group.attr g "axes" with
  | none => validateErrorsPart g sig
  | some av =>
    match normalizeNames av with
    | Except.error e => Except.error e
    | Except.ok axesNames =>
      let ndim := sig.shape.length
      if 1 < ndim ∧ ndim < axesNames.length then
        Except.ok (some (VReason.moreAxes axesNames.length ndim))
      else
        match interpCountCheck g sig ndim axesNames.length with
        | Except.error e => Except.error e
        | Except.ok (some r) => Except.ok (some r)
        | Except.ok none =>
          match uncertaintiesPart g sig axesNames with
          | Except.error e => Except.error e
          | Except.ok none => Except.ok (some VReason.uncertaintiesLen)
          | Except.ok (some unc) =>
            match checkAxes g sig.shape (listProd sig.shape) unc axesNames 0 true [] with
            | Except.error e => Except.error e
            | Except.ok (some r) => Except.ok (some r)
            | Except.ok none => validateErrorsPart g sig

/-- `is_valid_NXdata`, structured: `Except.ok none` is `return True`,
`Except.ok (some r)` is a warn-and-return-False site, `Except.error e`
is an uncaught Python exception. -/
def validate (g : Group) : Except Err (Option VReason) :=
  if Group.attr g "NX_class" ≠ some (AttrVal.s "NXdata") then
    Except.ok (some VReason.notNXdata)
  else
    match Group.attr g "signal" with
    | none => Except.ok (some VReason.noSignalAttr)
    | some (AttrVal.s signalName) =>
      match Group.child g signalName with
      | some (Node.ds sig) => validateAxesPart g sig
      | _ => Except.ok (some (VReason.signalNotFound signalName))
    | some _ => Except.error (Err.typeError "signal")

/-- The boolean `is_valid_NXdata` (the `Except.error` cases are the
attribute-value corners where the Python function would raise instead
of returning; they are collapsed to `false` here and are not exercised
by any claim). -/
def is_valid_NXdata (g : Group) : Bool :=
  match validate g with
  | Except.ok none => true
  | _ => false

/-- The signal resolution shared by the validator and the view:
`group.attrs["signal"]` must be a string naming a child dataset. -/
def signalOf (g : Group) : Option (String × Dataset) :=
  match Group.attr g "signal" with
  | some (AttrVal.s n) =>
    match Group.child g n with
    | some (Node.ds d) => some (n, d)
    | _ => none
  | _ => none

/-- An entry of the resolved axes list: the raw child node, or the
materialized numpy array obtained by good-range slicing. -/
inductive AxisData where
  | nd (n : Node)
  | arr (d : Dataset)
deriving Repr

/-- `mapM` over `Except`, written as the plain recursion the Python list
constructions perform. -/
def mapME {α β : Type} (f : α → Except Err β) : List α → Except Err (List β)
  | [] => Except.ok []
  | x :: xs =>
    match f x with
    | Except.error e => Except.error e
    | Except.ok y =>
      match mapME f xs with
      | Except.error e => Except.error e
      | Except.ok ys => Except.ok (y :: ys)

/-- Python slice-bound semantics on a first dimension of length `n`
(negative indices count from the end; out-of-range bounds clamp). -/
def pySliceBound (n : Nat) (i : Int) : Nat :=
  if i < 0 then ((n : Int) + i).toNat else min i.toNat n

/-- `dataset[start:stop]`: slice along the first dimension (a 0-d
dataset cannot be sliced). -/
def sliceDataset (d : Dataset) (start stop : Int) : Except Err Dataset :=
  match d.shape with
  | [] => Except.error (Err.typeError "slice")
  | n :: rest =>
    let r := listProd rest
    let a := pySliceBound n start
    let b := pySliceBound n stop
    let k := b - a
    Except.ok ⟨k :: rest, [], (d.data.drop (a * r)).take (k * r)⟩

/-- `len(node)`: the first dimension of a dataset (`TypeError` for 0-d),
or the number of children of a group. -/
def pyLen : Node → Except Err Nat
  | Node.ds d =>
    match d.shape with
    | [] => Except.error (Err.typeError "len")
    | n :: _ => Except.ok n
  | Node.sub _ c => Except.ok c.length

/-- `attrs.get(k) or default` — Python truthiness: an absent value *or a
present falsy value* (integer 0, empty string/list) selects the lazily
evaluated default; a present truthy non-integer is a `TypeError` when
used as a slice index. -/
def pyOrInt (v : Option AttrVal) (dflt : Unit → Except Err Int) : Except Err Int :=
  match v with
  | none => dflt ()
  | some (AttrVal.i n) => if n = 0 then dflt () else Except.ok n
  | some (AttrVal.s s) => if s = "" then dflt () else Except.error (Err.typeError "index")
  | some (AttrVal.ls l) => if l.isEmpty then dflt () else Except.error (Err.typeError "index")

/-- Lines 352-359 of the source (the `axes` good-range post-processing):
an axis whose dataset declares `first_good` or `last_good` is replaced
by the slice `axis[fg_idx : lg_idx + 1]`, with
`fg_idx = attrs.get("first_good") or 0` and
`lg_idx = attrs.get("last_good") or (len(axis) - 1)`. -/
def trimGood (ax : Node) : Except Err AxisData :=
  match alookup (Node.nattrs ax) "first_good", alookup (Node.nattrs ax) "last_good" with
  | none, none => Except.ok (AxisData.nd ax)
  | fgv, lgv =>
    match pyOrInt fgv (fun _ => Except.ok 0) with
    | Except.error e => Except.error e
    | Except.ok fg =>
      match pyOrInt lgv (fun _ =>
          match pyLen ax with
          | Except.error e => Except.error e
          | Except.ok n => Except.ok ((n : Int) - 1)) with
      | Except.error e => Except.error e
      | Except.ok lg =>
        match ax with
        | Node.sub _ _ => Except.error (Err.typeError "slice")
        | Node.ds d =>
          match sliceDataset d fg (lg + 1) with
          | Except.error e => Except.error e
          | Except.ok d1 => Except.ok (AxisData.arr d1)

/-- `self.group[axis_n]` for one `@axes` entry (`"."` gives `None`;
a missing child raises `KeyError`). -/
def resolveAxisNode (g : Group) (name : String) : Except Err (Option Node) :=
  if name = "." then Except.ok none
  else
    match Group.child g name with
    | none => Except.error (Err.keyError name)
    | some nd => Except.ok (some nd)

/-- The `NXdata.axes` property (lines 314-362): positional mapping when
`@axes` has one entry per signal dimension, interpretation-based padding
when it has fewer and `@interpretation` resolves, a scatter list
otherwise; then good-range trimming.  Only the *group's* `@axes`
attribute is consulted. -/
def axesE (g : Group) (sig : Dataset) : Except Err (List (Option AxisData)) :=
  let ndims := sig.shape.length
  match Group.attr g "axes" with
  | none => Except.ok (List.replicate ndims none)
  | some av =>
    match normalizeNames av with
    | Except.error e => Except.error e
    | Except.ok axesNames =>
      let raw : Except Err (List (Option Node)) :=
        if axesNames.length = ndims then
          mapME (resolveAxisNode g) axesNames
        else
          match interpOf g sig with
          | some (AttrVal.s s) =>
            match INTERPDIM s with
            | none => Except.error (Err.keyError s)
            | some d =>
              if axesNames.length ≠ d then Except.error Err.assertionError
              else
                match mapME (resolveAxisNode g) axesNames with
                | Except.error e => Except.error e
                | Except.ok l => Except.ok (List.replicate (ndims - d) none ++ l)
          | some _ => Except.error (Err.keyError "interpretation")
          | none => mapME (resolveAxisNode g) axesNames
      match raw with
      | Except.error e => Except.error e
      | Except.ok axs =>
        mapME (fun a =>
          match a with
          | none => Except.ok none
          | some ax =>
            match trimGood ax with
            | Except.error e => Except.error e
            | Except.ok t => Except.ok (some t)) axs

/-- `axis_size = product(axis.shape)` for a resolved axis entry (a
sub-group has no `.shape`: `AttributeError`). -/
def axisSizeE : AxisData → Except Err Nat
  | AxisData.nd (Node.ds d) => Except.ok (listProd d.shape)
  | AxisData.nd (Node.sub _ _) => Except.error Err.attributeError
  | AxisData.arr d => Except.ok (listProd d.shape)

/-- The loop of the `is_scatter` property: conjoin
`axis_size == sigsize` over all non-null resolved axes. -/
def scatterFold (sigsize : Nat) : List (Option AxisData) → Bool → Except Err Bool
  | [], acc => Except.ok acc
  | a :: rest, acc =>
    match a with
    | none => scatterFold sigsize rest acc
    | some ax =>
      match axisSizeE ax with
      | Except.error e => Except.error e
      | Except.ok s => scatterFold sigsize rest (acc && decide (s = sigsize))

/-- The `is_scatter` computation (lines 472-492): `False` for a signal
that is not 1-D, else every non-null resolved axis must have the
signal's total element count. -/
def computeIsScatter (sig1D : Bool) (sigShape : List Nat)
    (axs : List (Option AxisData)) : Except Err Bool :=
  if sig1D = false then Except.ok false
  else scatterFold (listProd sigShape) axs true

/-- The `NXdata.axes_dataset_names` property (lines 364-400): reads
`@axes` from the group, *falling back to the signal's attribute*;
`"."` becomes `None`; a length mismatch with the signal's ndim returns
the list as-is for a 1-D scatter, else pads with leading `None`s after
asserting the `INTERPDIM` count.  Also returns the `_is_scatter` cache
state this computation leaves behind (`some` iff `is_scatter` ran). -/
def axesDatasetNamesE (g : Group) (sig : Dataset) (sig1D : Bool) :
    Except Err (List (Option String) × Option Bool) :=
  let ndims := sig.shape.length
  let rawNames := match Group.attr g "axes" with
    | some v => some v
    | none => alookup sig.attrs "axes"
  match rawNames with
  | none => Except.ok (List.replicate ndims none, none)
  | some av =>
    match normalizeNames av with
    | Except.error e => Except.error e
    | Except.ok ns =>
      let nsN := ns.map (fun n => if n = "." then none else some n)
      if nsN.length = ndims then Except.ok (nsN, none)
      else
        match axesE g sig with
        | Except.error e => Except.error e
        | Except.ok axs =>
          match computeIsScatter sig1D sig.shape axs with
          | Except.error e => Except.error e
          | Except.ok sc =>
            if sc = true ∧ ndims = 1 then Except.ok (nsN, some sc)
            else
              match interpOf g sig with
              | some (AttrVal.s s) =>
                match INTERPDIM s with
                | none => Except.error (Err.keyError s)
                | some d =>
                  if nsN.length ≠ d then Except.error Err.assertionError
                  else Except.ok (List.replicate (ndims - d) none ++ nsN, some sc)
              | _ => Except.error (Err.keyError "interpretation")

/-- Lines 237-242 of the source: build `axes_names` from
`axes_dataset_names`, substituting a dataset's `@long_name` when
present (the child lookup itself can raise `KeyError`). -/
def axesNamesFrom (g : Group) (adn : List (Option String)) :
    Except Err (List (Option AttrVal)) :=
  mapME (fun dsn =>
    match dsn with
    | none => Except.ok none
    | some n =>
      match Group.child g n with
      | none => Except.error (Err.keyError n)
      | some node =>
        match alookup (Node.nattrs node) "long_name" with
        | some v => Except.ok (some v)
        | none => Except.ok (some (AttrVal.s n))) adn

/-- The state of an `NXdata` view after `__init__` finishes: the wrapped
group, the resolved signal, the shape classifiers (with the
post-construction reassignment of `signal_is_1D`), the eagerly computed
name lists, the `_axes` cache (always filled, by line 245), and the
`_is_scatter` cache state. -/
structure NXview where
  group : Group
  signalName : String
  signal : Dataset
  signal_is_0D : Bool
  signal_is_1D : Bool
  signal_is_2D : Bool
  signal_is_3D : Bool
  axes_dataset_names : List (Option String)
  axes_names : List (Option AttrVal)
  axes : List (Option AxisData)
  isScatterCache : Option Bool
deriving Repr

/-- `NXdata.__init__` (lines 209-245): validate (raising `TypeError` on
an invalid group), resolve the signal, compute `axes_names` (which
evaluates `axes_dataset_names`, possibly `is_scatter` and hence `axes`),
access `axes` (caching it), and finally reassign
`signal_is_1D := signal_is_1D and len(axes) <= 1`. -/
def NXdataInit (g : Group) : Except Err NXview :=
  match validate g with
  | Except.error e => Except.error e
  | Except.ok (some _) => Except.error Err.notValidNXdata
  | Except.ok none =>
    match Group.attr g "signal" with
    | some (AttrVal.s sname) =>
      match Group.child g sname with
      | some (Node.ds sig) =>
        let nd := sig.shape.length
        match axesDatasetNamesE g sig (decide (nd = 1)) with
        | Except.error e => Except.error e
        | Except.ok (adn, cache) =>
          match axesNamesFrom g adn with
          | Except.error e => Except.error e
          | Except.ok anames =>
            match axesE g sig with
            | Except.error e => Except.error e
            | Except.ok axs =>
              Except.ok
                { group := g
                  signalName := sname
                  signal := sig
                  signal_is_0D := decide (nd = 0)
                  signal_is_1D := decide (nd = 1) && decide (axs.length ≤ 1)
                  signal_is_2D := decide (nd = 2)
                  signal_is_3D := decide (nd = 3)
                  axes_dataset_names := adn
                  axes_names := anames
                  axes := axs
                  isScatterCache := cache }
      | _ => Except.error (Err.keyError sname)
    | _ => Except.error (Err.keyError "signal")

/-- The `is_scatter` property on a constructed view: the cached value if
`__init__` filled it, else a fresh computation with the (reassigned)
`signal_is_1D` flag. -/
def NXview.isScatterE (v : NXview) : Except Err Bool :=
  match v.isScatterCache with
  | some b => Except.ok b
  | none => computeIsScatter v.signal_is_1D v.signal.shape v.axes

/-- `is_x_y_value_scatter`: a scatter with exactly two axes. -/
def NXview.isXYValueScatterE (v : NXview) : Except Err Bool :=
  match NXview.isScatterE v with
  | Except.error e => Except.error e
  | Except.ok b => Except.ok (b && decide (v.axes.length = 2))

/-- The `errors` property (lines 462-470): the child named `"errors"`
if any (no dataset check), else `None`. -/
def NXview.errorsOf (v : NXview) : Option Node :=
  match Group.child v.group "errors" with
  | none => none
  | some c => some c

/-- Lines 414-419 of the source: scan the group's children, in order,
for the first one whose `@long_name` attribute equals the requested
name. -/
def findLongNameAlias : List (String × Node) → String → Option String
  | [], _ => none
  | (k, nd) :: rest, name =>
    if alookup (Node.nattrs nd) "long_name" = some (AttrVal.s name) then some k
    else findLongNameAlias rest name

/-- Lines 444-446 of the source: the `@axes` attribute as read inside
`get_axis_errors` — the group's attribute, falling back to the
signal's. -/
def axesAttrOf (g : Group) (sig : Dataset) : Option AttrVal :=
  match Group.attr g "axes" with
  | some a => some a
  | none => alookup sig.attrs "axes"

/-- Lines 444-451 of the source: resolve and normalize the `@axes` name
list inside `get_axis_errors`; an absent or integer-valued attribute
makes the later membership iteration raise `TypeError`. -/
def axesNamesListForGAE : Option AttrVal → Except Err (List String)
  | some (AttrVal.s s) => Except.ok [s]
  | some (AttrVal.ls l) => Except.ok l
  | some (AttrVal.i _) => Except.error (Err.typeError "axes")
  | none => Except.error (Err.typeError "axes")

/-- `uncertainties_names[idx]` after the str-to-list normalization of
lines 440-441 (an integer-valued attribute raises at indexing). -/
def uncIndex : AttrVal → Nat → Except Err String
  | AttrVal.s s, k => if k = 0 then Except.ok s else Except.error Err.indexError
  | AttrVal.ls l, k =>
    match l.get? k with
    | some x => Except.ok x
    | none => Except.error Err.indexError
  | AttrVal.i _, _ => Except.error (Err.typeError "uncertainties")

/-- `list.index(a)` — the first occurrence. -/
def firstIdx : List String → String → Nat
  | [], _ => 0
  | x :: rest, a => if x = a then 0 else firstIdx rest a + 1

/-- Lines 436-460 of the source: the `@uncertainties` fallback of
`get_axis_errors` — the entry at the axis's position within `@axes`,
trimmed when the good range is non-default; a name absent from `@axes`
raises the "does not mention" `KeyError`. -/
def gaeUncert (v : NXview) (axisName : String) (fg lg : Int) (lenAxis : Nat) :
    Except Err (Option AxisData) :=
  match uncOf v.group v.signal with
  | none => Except.ok none
  | some u =>
    match axesNamesListForGAE (axesAttrOf v.group v.signal) with
    | Except.error e => Except.error e
    | Except.ok axNames =>
      if axNames.contains axisName = false then
        Except.error (Err.axesNotMention axisName)
      else
        match uncIndex u (firstIdx axNames axisName) with
        | Except.error e => Except.error e
        | Except.ok en =>
          match Group.child v.group en with
          | none => Except.error (Err.keyError en)
          | some nd =>
            if fg = 0 ∧ lg = (lenAxis : Int) - 1 then
              Except.ok (some (AxisData.nd nd))
            else
              match nd with
              | Node.ds d =>
                match sliceDataset d fg (lg + 1) with
                | Except.error e => Except.error e
                | Except.ok d1 => Except.ok (some (AxisData.arr d1))
              | Node.sub _ _ => Except.error (Err.typeError "slice")

/-- Lines 429-435 of the source: the `<axis_name>_errors` child, when it
exists *and is a dataset*, is returned (trimmed when the good range is
non-default); otherwise fall through to the `@uncertainties` logic. -/
def gaeErrorsChild (v : NXview) (axisName : String) (fg lg : Int) (lenAxis : Nat) :
    Except Err (Option AxisData) :=
  match Group.child v.group (axisName ++ "_errors") with
  | some (Node.ds e) =>
    if fg ≠ 0 ∨ lg ≠ (lenAxis : Int) - 1 then
      match sliceDataset e fg (lg + 1) with
      | Except.error e1 => Except.error e1
      | Except.ok d1 => Except.ok (some (AxisData.arr d1))
    else Except.ok (some (AxisData.nd (Node.ds e)))
  | _ => gaeUncert v axisName fg lg lenAxis

/-- Lines 421-435 of the source, after alias resolution: raise the
"does not contain a dataset named" `KeyError` when the resolved name is
no child, else read `len(axis)` and the good-range attributes and
resolve the errors dataset. -/
def gaeResolved (v : NXview) (axisName : String) : Except Err (Option AxisData) :=
  match Group.child v.group axisName with
  | none => Except.error (Err.axisKeyNotFound axisName)
  | some axNode =>
    match pyLen axNode with
    | Except.error e => Except.error e
    | Except.ok lenAxis =>
      match getIntAttrD (Node.nattrs axNode) "first_good" 0 with
      | Except.error e => Except.error e
      | Except.ok fg =>
        match getIntAttrD (Node.nattrs axNode) "last_good" ((lenAxis : Int) - 1) with
        | Except.error e => Except.error e
        | Except.ok lg => gaeErrorsChild v axisName fg lg lenAxis

/-- `NXdata.get_axis_errors` (lines 402-460): tolerate lookup by
`@long_name` alias, then resolve the errors dataset. -/
def getAxisErrors (v : NXview) (axisName0 : String) : Except Err (Option AxisData) :=
  let axisName :=
    match Group.child v.group axisName0 with
    | some _ => axisName0
    | none =>
      match findLongNameAlias v.group.children axisName0 with
      | some k => k
      | none => axisName0
  gaeResolved v axisName

/-! Concrete groups used as test vectors for the claims. -/

/-- A 1-D signal of length 5 with two length-1 (polynomial) axes: the
validator accepts it, but `NXdata.__init__` raises. -/
def groupPolyPair : Group :=
  { attrs := [("NX_class", AttrVal.s "NXdata"), ("signal", AttrVal.s "s"),
              ("axes", AttrVal.ls ["a", "b"])]
    children := [("s", Node.ds ⟨[5], [], [0, 1, 2, 3, 4]⟩),
                 ("a", Node.ds ⟨[1], [], [7]⟩),
                 ("b", Node.ds ⟨[1], [], [8]⟩)] }

/-- A scatter whose `x_errors` child has the wrong shape: the validator
never shape-checks an `<axis>_errors` child. -/
def groupChildErrBadShape : Group :=
  { attrs := [("NX_class", AttrVal.s "NXdata"), ("signal", AttrVal.s "s"),
              ("axes", AttrVal.ls ["x"])]
    children := [("s", Node.ds ⟨[5], [], [0, 1, 2, 3, 4]⟩),
                 ("x", Node.ds ⟨[5], [], [0, 1, 2, 3, 4]⟩),
                 ("x_errors", Node.ds ⟨[3], [], [1, 1, 1]⟩)] }

/-- A scatter whose `@uncertainties`-resolved errors dataset has the
wrong shape: this one the validator rejects. -/
def groupUncErrBadShape : Group :=
  { attrs := [("NX_class", AttrVal.s "NXdata"), ("signal", AttrVal.s "s"),
              ("axes", AttrVal.ls ["x"]), ("uncertainties", AttrVal.ls ["xu"])]
    children := [("s", Node.ds ⟨[5], [], [0, 1, 2, 3, 4]⟩),
                 ("x", Node.ds ⟨[5], [], [0, 1, 2, 3, 4]⟩),
                 ("xu", Node.ds ⟨[3], [], [1, 1, 1]⟩)] }

/-- An axis of length 5 declaring `last_good = 0` (present but falsy):
validation accepts it as a polynomial axis, and the `axes` trimming
treats the declared 0 as if the attribute were absent. -/
def groupLastGoodZero : Group :=
  { attrs := [("NX_class", AttrVal.s "NXdata"), ("signal", AttrVal.s "s"),
              ("axes", AttrVal.ls ["x"])]
    children := [("s", Node.ds ⟨[3], [], [0, 1, 2]⟩),
                 ("x", Node.ds ⟨[5], [("last_good", AttrVal.i 0)], [10, 11, 12, 13, 14]⟩)] }

/-- The round-trip scenario: an axis of length 8 with `first_good = 2`
and `last_good = 5` resolves to the 4 elements `axis[2:6]`. -/
def groupGoodRange : Group :=
  { attrs := [("NX_class", AttrVal.s "NXdata"), ("signal", AttrVal.s "s"),
              ("axes", AttrVal.ls ["x"])]
    children := [("s", Node.ds ⟨[4], [], [0, 1, 2, 3]⟩),
                 ("x", Node.ds ⟨[8], [("first_good", AttrVal.i 2), ("last_good", AttrVal.i 5)],
                                [0, 1, 2, 3, 4, 5, 6, 7]⟩)] }

/-- A group whose `@axes` lives only on the *signal*: validation ignores
it, `axes` resolves to `[None]`, but `axes_dataset_names` picks it up. -/
def groupSignalAxes : Group :=
  { attrs := [("NX_class", AttrVal.s "NXdata"), ("signal", AttrVal.s "s")]
    children := [("s", Node.ds ⟨[5], [("axes", AttrVal.ls ["x"])], [0, 1, 2, 3, 4]⟩),
                 ("x", Node.ds ⟨[5], [], [0, 1, 2, 3, 4]⟩)] }

/-- A polynomial axis listed *before* a signal-sized axis: rejected. -/
def groupOrderPF : Group :=
  { attrs := [("NX_class", AttrVal.s "NXdata"), ("signal", AttrVal.s "s"),
              ("axes", AttrVal.ls ["p", "f"])]
    children := [("s", Node.ds ⟨[10], [], [0, 1, 2, 3, 4, 5, 6, 7, 8, 9]⟩),
                 ("p", Node.ds ⟨[1], [], [3]⟩),
                 ("f", Node.ds ⟨[10], [], [0, 1, 2, 3, 4, 5, 6, 7, 8, 9]⟩)] }

/-- The same two axes in the opposite order: accepted. -/
def groupOrderFP : Group :=
  { attrs := [("NX_class", AttrVal.s "NXdata"), ("signal", AttrVal.s "s"),
              ("axes", AttrVal.ls ["f", "p"])]
    children := [("s", Node.ds ⟨[10], [], [0, 1, 2, 3, 4, 5, 6, 7, 8, 9]⟩),
                 ("p", Node.ds ⟨[1], [], [3]⟩),
                 ("f", Node.ds ⟨[10], [], [0, 1, 2, 3, 4, 5, 6, 7, 8, 9]⟩)] }

/-- The x-y-value scatter scenario: a `(10,)` signal with two `(10,)`
axes. -/
def groupScatterXY : Group :=
  { attrs := [("NX_class", AttrVal.s "NXdata"), ("signal", AttrVal.s "s"),
              ("axes", AttrVal.ls ["x", "y"])]
    children := [("s", Node.ds ⟨[10], [], [0, 1, 2, 3, 4, 5, 6, 7, 8, 9]⟩),
                 ("x", Node.ds ⟨[10], [], [0, 1, 2, 3, 4, 5, 6, 7, 8, 9]⟩),
                 ("y", Node.ds ⟨[10], [], [9, 8, 7, 6, 5, 4, 3, 2, 1, 0]⟩)] }

/-- A valid view with an extra child dataset `z` not mentioned by
`@axes`, while `@uncertainties` is present. -/
def groupExtraChild : Group :=
  { attrs := [("NX_class", AttrVal.s "NXdata"), ("signal", AttrVal.s "s"),
              ("axes", AttrVal.ls ["x"]), ("uncertainties", AttrVal.ls ["xu"])]
    children := [("s", Node.ds ⟨[4], [], [0, 1, 2, 3]⟩),
                 ("x", Node.ds ⟨[4], [], [0, 1, 2, 3]⟩),
                 ("xu", Node.ds ⟨[4], [], [1, 1, 1, 1]⟩),
                 ("z", Node.ds ⟨[4], [], [5, 5, 5, 5]⟩)] }

/-- A 0-D signal with one element-count-1 axis. -/
def groupZeroDim : Group :=
  { attrs := [("NX_class", AttrVal.s "NXdata"), ("signal", AttrVal.s "s"),
              ("axes", AttrVal.ls ["x"])]
    children := [("s", Node.ds ⟨[], [], [42]⟩),
                 ("x", Node.ds ⟨[1], [], [7]⟩)] }

/-- A valid group whose `"errors"` child is a sub-group, not a dataset:
the validator's errors shape check is skipped. -/
def groupErrorsSubgroup : Group :=
  { attrs := [("NX_class", AttrVal.s "NXdata"), ("signal", AttrVal.s "s")]
    children := [("s", Node.ds ⟨[2], [], [0, 1]⟩),
                 ("errors", Node.sub [] [])] }

/-- A valid group whose axis `x` declares a non-default good range
(`last_good = 1`, so `axis_len = 2` matches the signal) and carries an
`x_errors` child: `get_axis_errors("x")` must return the slice
`x_errors[0:2]`. -/
def groupTrimChildErr : Group :=
  { attrs := [("NX_class", AttrVal.s "NXdata"), ("signal", AttrVal.s "s"),
              ("axes", AttrVal.ls ["x"])]
    children := [("s", Node.ds ⟨[2], [], [9, 9]⟩),
                 ("x", Node.ds ⟨[4], [("last_good", AttrVal.i 1)], [0, 1, 2, 3]⟩),
                 ("x_errors", Node.ds ⟨[4], [], [7, 8, 9, 10]⟩)] }

/-!
Claim C8: a state-passing model of the engine over a mutable group
store.  `RW α` is a state transformer in which writes are expressible
(`rwSetAttr`, `rwSetChild` are part of the interface); the engine's
operations are translated below using only the read primitives, and the
frame theorems state that each operation returns the store unchanged.
Attribute reads hand out values (h5py attribute access returns copies),
so the in-place `axes_dataset_names[i] = None` of the source edits a
local copy, never the store.
-/

def RW (α : Type) : Type := Group → α × Group

def rwPure {α : Type} (a : α) : RW α := fun g => (a, g)

def rwBind {α β : Type} (m : RW α) (f : α → RW β) : RW β :=
  fun g =>
    let p := m g
    f p.1 p.2

/-- Read an attribute of the group (returns a copy of the value). -/
def rwGetAttr (k : String) : RW (Option AttrVal) := fun g => (Group.attr g k, g)

/-- Read a child of the group. -/
def rwGetChild (k : String) : RW (Option Node) := fun g => (Group.child g k, g)

/-- Iterate over the group's children. -/
def rwChildren : RW (List (String × Node)) := fun g => (g.children, g)

/-- Write an attribute — expressible in the model, used by no
operation of the engine. -/
def rwSetAttr (k : String) (val : AttrVal) : RW Unit :=
  fun g => ((), ⟨(k, val) :: g.attrs, g.children⟩)

/-- Write a child — expressible in the model, used by no operation of
the engine. -/
def rwSetChild (k : String) (nd : Node) : RW Unit :=
  fun g => ((), ⟨g.attrs, (k, nd) :: g.children⟩)

/-- A computation is read-only when it returns the store unchanged. -/
def ReadOnly {α : Type} (m : RW α) : Prop := ∀ g, (m g).2 = g

theorem ro_pure {α : Type} (a : α) : ReadOnly (rwPure a) := fun _ => rfl

theorem ro_bind {α β : Type} {m : RW α} {f : α → RW β}
    (hm : ReadOnly m) (hf : ∀ a, ReadOnly (f a)) : ReadOnly (rwBind m f) := by
  intro g
  unfold rwBind
  simp only []
  rw [hm g]
  exact hf (m g).1 g

theorem ro_getAttr (k : String) : ReadOnly (rwGetAttr k) := fun _ => rfl

theorem ro_getChild (k : String) : ReadOnly (rwGetChild k) := fun _ => rfl

theorem ro_children : ReadOnly rwChildren := fun _ => rfl

/-- The per-axis uncertainty check, against the store. -/
def uncertaintyCheckRW (unc : Option (List String)) (name : String) (i : Nat)
    (axis : Dataset) (sc : Bool) (poly : List String) : RW (Except Err StepRes) :=
  rwBind (rwGetChild (name ++ "_errors")) (fun ec =>
    match ec, unc with
    | none, some us =>
      match us.get? i with
      | none => rwPure (Except.error Err.indexError)
      | some en =>
        rwBind (rwGetChild en) (fun enc =>
          match enc with
          | none => rwPure (Except.ok (StepRes.cont sc poly))
          | some node =>
            if name ∈ poly then rwPure (Except.ok (StepRes.cont sc poly))
            else
              match node with
              | Node.ds e =>
                if e.shape ≠ axis.shape then
                  rwPure (Except.ok (StepRes.fail (VReason.axisErrorsShape en name)))
                else rwPure (Except.ok (StepRes.cont sc poly))
              | Node.sub _ _ => rwPure (Except.error Err.attributeError))
    | _, _ => rwPure (Except.ok (StepRes.cont sc poly)))

/-- One iteration of the validator's per-axis loop, against the store. -/
def axisStepRW (sigShape : List Nat) (signalSize : Nat)
    (unc : Option (List String)) (name : String) (i : Nat) (sc : Bool)
    (poly : List String) : RW (Except Err StepRes) :=
  if name = "." then rwPure (Except.ok (StepRes.cont sc poly))
  else
    rwBind (rwGetChild name) (fun c =>
      match c with
      | none => rwPure (Except.ok (StepRes.fail (VReason.axisNotFound name)))
      | some (Node.sub _ _) =>
        rwPure (Except.ok (StepRes.fail (VReason.axisNotFound name)))
      | some (Node.ds axis) =>
        match axisLenDs axis with
        | Except.error e => rwPure (Except.error e)
        | Except.ok axisLen =>
          if axis.shape.length ≠ 1 ∧ axisLen ≠ (signalSize : Int) then
            rwPure (Except.ok (StepRes.fail (VReason.axisNdShape name)))
          else
            match sizeCheck sigShape signalSize name axisLen sc poly with
            | StepRes.fail r => rwPure (Except.ok (StepRes.fail r))
            | StepRes.cont sc1 poly1 =>
              uncertaintyCheckRW unc name i axis sc1 poly1)

/-- The validator's per-axis loop, against the store. -/
def checkAxesRW (sigShape : List Nat) (signalSize : Nat)
    (unc : Option (List String)) :
    List String → Nat → Bool → List String → RW (Except Err (Option VReason))
  | [], _, _, _ => rwPure (Except.ok none)
  | name :: rest, i, sc, poly =>
    rwBind (axisStepRW sigShape signalSize unc name i sc poly) (fun st =>
      match st with
      | Except.error e => rwPure (Except.error e)
      | Except.ok (StepRes.fail r) => rwPure (Except.ok (some r))
      | Except.ok (StepRes.cont sc1 poly1) =>
        checkAxesRW sigShape signalSize unc rest (i + 1) sc1 poly1)

def validateErrorsPartRW (sig : Dataset) : RW (Except Err (Option VReason)) :=
  rwBind (rwGetChild "errors") (fun ec =>
    match ec with
    | some (Node.ds e) =>
      if e.shape ≠ sig.shape then rwPure (Except.ok (some VReason.errorsShape))
      else rwPure (Except.ok none)
    | _ => rwPure (Except.ok none))

def interpOfRW (sig : Dataset) : RW (Option AttrVal) :=
  match alookup sig.attrs "interpretation" with
  | some v => rwPure (some v)
  | none => rwGetAttr "interpretation"

def uncOfRW (sig : Dataset) : RW (Option AttrVal) :=
  rwBind (rwGetAttr "uncertainties") (fun u =>
    match u with
    | some v => rwPure (some v)
    | none => rwPure (alookup sig.attrs "uncertainties"))

def interpCountCheckRW (sig : Dataset) (ndim nNames : Nat) :
    RW (Except Err (Option VReason)) :=
  if ndim > nNames then
    rwBind (interpOfRW sig) (fun iv =>
      match iv with
      | none => rwPure (Except.ok (some VReason.noInterpretation))
      | some (AttrVal.s s) =>
        match INTERPDIM s with
        | none => rwPure (Except.ok (some (VReason.badInterpretation s)))
        | some d =>
          if nNames ≠ d then
            rwPure (Except.ok (some (VReason.interpAxesCount ndim s)))
          else rwPure (Except.ok none)
      | some _ => rwPure (Except.error (Err.typeError "interpretation")))
  else rwPure (Except.ok none)

def uncertaintiesPartRW (sig : Dataset) (axesNames : List String) :
    RW (Except Err (Option (Option (List String)))) :=
  rwBind (uncOfRW sig) (fun uv =>
    match uv with
    | none => rwPure (Except.ok (some none))
    | some u =>
      match normalizeNames u with
      | Except.error e => rwPure (Except.error e)
      | Except.ok us =>
        if us.length ≠ axesNames.length then rwPure (Except.ok none)
        else rwPure (Except.ok (some (some us))))

def validateAxesPartRW (sig : Dataset) : RW (Except Err (Option VReason)) :=
  rwBind (rwGetAttr "axes") (fun axv =>
    match axv with
    | none => validateErrorsPartRW sig
    | some av =>
      match normalizeNames av with
      | Except.error e => rwPure (Except.error e)
      | Except.ok axesNames =>
        let ndim := sig.shape.length
        if 1 < ndim ∧ ndim < axesNames.length then
          rwPure (Except.ok (some (VReason.moreAxes axesNames.length ndim)))
        else
          rwBind (interpCountCheckRW sig ndim axesNames.length) (fun ic =>
            match ic with
            | Except.error e => rwPure (Except.error e)
            | Except.ok (some r) => rwPure (Except.ok (some r))
            | Except.ok none =>
              rwBind (uncertaintiesPartRW sig axesNames) (fun ur =>
                match ur with
                | Except.error e => rwPure (Except.error e)
                | Except.ok none =>
                  rwPure (Except.ok (some VReason.uncertaintiesLen))
                | Except.ok (some unc) =>
                  rwBind (checkAxesRW sig.shape (listProd sig.shape) unc
                      axesNames 0 true []) (fun lr =>
                    match lr with
                    | Except.error e => rwPure (Except.error e)
                    | Except.ok (some r) => rwPure (Except.ok (some r))
                    | Except.ok none => validateErrorsPartRW sig))))

/-- `is_valid_NXdata` against the store. -/
def validateRW : RW (Except Err (Option VReason)) :=
  rwBind (rwGetAttr "NX_class") (fun nxc =>
    if nxc ≠ some (AttrVal.s "NXdata") then
      rwPure (Except.ok (some VReason.notNXdata))
    else
      rwBind (rwGetAttr "signal") (fun sv =>
        match sv with
        | none => rwPure (Except.ok (some VReason.noSignalAttr))
        | some (AttrVal.s sn) =>
          rwBind (rwGetChild sn) (fun c =>
            match c with
            | some (Node.ds sig) => validateAxesPartRW sig
            | _ => rwPure (Except.ok (some (VReason.signalNotFound sn))))
        | some _ => rwPure (Except.error (Err.typeError "signal"))))

def mapMRW {α β : Type} (f : α → RW (Except Err β)) :
    List α → RW (Except Err (List β))
  | [] => rwPure (Except.ok [])
  | x :: xs =>
    rwBind (f x) (fun r =>
      match r with
      | Except.error e => rwPure (Except.error e)
      | Except.ok y =>
        rwBind (mapMRW f xs) (fun rs =>
          match rs with
          | Except.error e => rwPure (Except.error e)
          | Except.ok ys => rwPure (Except.ok (y :: ys))))

def resolveAxisNodeRW (name : String) : RW (Except Err (Option Node)) :=
  if name = "." then rwPure (Except.ok none)
  else
    rwBind (rwGetChild name) (fun c =>
      match c with
      | none => rwPure (Except.error (Err.keyError name))
      | some nd => rwPure (Except.ok (some nd)))

/-- The `axes` property against the store (good-range trimming operates
on the fetched nodes, hence is pure). -/
def axesRW (sig : Dataset) : RW (Except Err (List (Option AxisData))) :=
  let ndims := sig.shape.length
  rwBind (rwGetAttr "axes") (fun axv =>
    match axv with
    | none => rwPure (Except.ok (List.replicate ndims none))
    | some av =>
      match normalizeNames av with
      | Except.error e => rwPure (Except.error e)
      | Except.ok axesNames =>
        rwBind
          (if axesNames.length = ndims then
            mapMRW resolveAxisNodeRW axesNames
          else
            rwBind (interpOfRW sig) (fun iv =>
              match iv with
              | some (AttrVal.s s) =>
                match INTERPDIM s with
                | none => rwPure (Except.error (Err.keyError s))
                | some d =>
                  if axesNames.length ≠ d then
                    rwPure (Except.error Err.assertionError)
                  else
                    rwBind (mapMRW resolveAxisNodeRW axesNames) (fun r =>
                      match r with
                      | Except.error e => rwPure (Except.error e)
                      | Except.ok l =>
                        rwPure (Except.ok (List.replicate (ndims - d) none ++ l)))
              | some _ => rwPure (Except.error (Err.keyError "interpretation"))
              | none => mapMRW resolveAxisNodeRW axesNames))
          (fun raw =>
            match raw with
            | Except.error e => rwPure (Except.error e)
            | Except.ok axs =>
              rwPure (mapME (fun a =>
                match a with
                | none => Except.ok none
                | some ax =>
                  match trimGood ax with
                  | Except.error e => Except.error e
                  | Except.ok t => Except.ok (some t)) axs)))

/-- The `axes_dataset_names` property against the store. -/
def axesDatasetNamesRW (sig : Dataset) (sig1D : Bool) :
    RW (Except Err (List (Option String) × Option Bool)) :=
  let ndims := sig.shape.length
  rwBind (rwGetAttr "axes") (fun ga =>
    match (match ga with
           | some v => some v
           | none => alookup sig.attrs "axes") with
    | none => rwPure (Except.ok (List.replicate ndims none, none))
    | some av =>
      match normalizeNames av with
      | Except.error e => rwPure (Except.error e)
      | Except.ok ns =>
        let nsN := ns.map (fun n => if n = "." then none else some n)
        if nsN.length = ndims then rwPure (Except.ok (nsN, none))
        else
          rwBind (axesRW sig) (fun ar =>
            match ar with
            | Except.error e => rwPure (Except.error e)
            | Except.ok axs =>
              match computeIsScatter sig1D sig.shape axs with
              | Except.error e => rwPure (Except.error e)
              | Except.ok sc =>
                if sc = true ∧ ndims = 1 then rwPure (Except.ok (nsN, some sc))
                else
                  rwBind (interpOfRW sig) (fun iv =>
                    match iv with
                    | some (AttrVal.s s) =>
                      match INTERPDIM s with
                      | none => rwPure (Except.error (Err.keyError s))
                      | some d =>
                        if nsN.length ≠ d then
                          rwPure (Except.error Err.assertionError)
                        else
                          rwPure (Except.ok
                            (List.replicate (ndims - d) none ++ nsN, some sc))
                    | _ => rwPure (Except.error (Err.keyError "interpretation")))))

/-- The `axes_names` construction loop against the store. -/
def axesNamesFromRW (adn : List (Option String)) :
    RW (Except Err (List (Option AttrVal))) :=
  mapMRW (fun dsn =>
    match dsn with
    | none => rwPure (Except.ok none)
    | some n =>
      rwBind (rwGetChild n) (fun c =>
        match c with
        | none => rwPure (Except.error (Err.keyError n))
        | some node =>
          match alookup (Node.nattrs node) "long_name" with
          | some v => rwPure (Except.ok (some v))
          | none => rwPure (Except.ok (some (AttrVal.s n))))) adn

/-- The `errors` property against the store. -/
def errorsRW : RW (Option Node) :=
  rwBind (rwGetChild "errors") (fun c =>
    match c with
    | none => rwPure none
    | some nd => rwPure (some nd))

/-- The `@uncertainties` fallback of `get_axis_errors` against the
store. -/
def gaeUncertRW (sig : Dataset) (axisName : String) (fg lg : Int)
    (lenAxis : Nat) : RW (Except Err (Option AxisData)) :=
  rwBind (uncOfRW sig) (fun uv =>
    match uv with
    | none => rwPure (Except.ok none)
    | some u =>
      rwBind (rwGetAttr "axes") (fun ga =>
        match axesNamesListForGAE (match ga with
            | some a => some a
            | none => alookup sig.attrs "axes") with
        | Except.error e => rwPure (Except.error e)
        | Except.ok axNames =>
          if axNames.contains axisName = false then
            rwPure (Except.error (Err.axesNotMention axisName))
          else
            match uncIndex u (firstIdx axNames axisName) with
            | Except.error e => rwPure (Except.error e)
            | Except.ok en =>
              rwBind (rwGetChild en) (fun c =>
                match c with
                | none => rwPure (Except.error (Err.keyError en))
                | some nd =>
                  if fg = 0 ∧ lg = (lenAxis : Int) - 1 then
                    rwPure (Except.ok (some (AxisData.nd nd)))
                  else
                    match nd with
                    | Node.ds d =>
                      match sliceDataset d fg (lg + 1) with
                      | Except.error e => rwPure (Except.error e)
                      | Except.ok d1 => rwPure (Except.ok (some (AxisData.arr d1)))
                    | Node.sub _ _ =>
                      rwPure (Except.error (Err.typeError "slice")))))

/-- The `<axis_name>_errors` branch of `get_axis_errors` against the
store. -/
def gaeErrorsChildRW (sig : Dataset) (axisName : String) (fg lg : Int)
    (lenAxis : Nat) : RW (Except Err (Option AxisData)) :=
  rwBind (rwGetChild (axisName ++ "_errors")) (fun ec =>
    match ec with
    | some (Node.ds e) =>
      if fg ≠ 0 ∨ lg ≠ (lenAxis : Int) - 1 then
        match sliceDataset e fg (lg + 1) with
        | Except.error e1 => rwPure (Except.error e1)
        | Except.ok d1 => rwPure (Except.ok (some (AxisData.arr d1)))
      else rwPure (Except.ok (some (AxisData.nd (Node.ds e))))
    | _ => gaeUncertRW sig axisName fg lg lenAxis)

/-- `get_axis_errors` after alias resolution, against the store. -/
def gaeResolvedRW (sig : Dataset) (axisName : String) :
    RW (Except Err (Option AxisData)) :=
  rwBind (rwGetChild axisName) (fun c =>
    match c with
    | none => rwPure (Except.error (Err.axisKeyNotFound axisName))
    | some axNode =>
      match pyLen axNode with
      | Except.error e => rwPure (Except.error e)
      | Except.ok lenAxis =>
        match getIntAttrD (Node.nattrs axNode) "first_good" 0 with
        | Except.error e => rwPure (Except.error e)
        | Except.ok fg =>
          match getIntAttrD (Node.nattrs axNode) "last_good"
              ((lenAxis : Int) - 1) with
          | Except.error e => rwPure (Except.error e)
          | Except.ok lg => gaeErrorsChildRW sig axisName fg lg lenAxis)

/-- `get_axis_errors` against the store (membership test, then the alias
scan over the children when the direct lookup misses). -/
def getAxisErrorsRW (sig : Dataset) (axisName0 : String) :
    RW (Except Err (Option AxisData)) :=
  rwBind (rwGetChild axisName0) (fun c0 =>
    rwBind (match c0 with
      | some _ => rwPure axisName0
      | none =>
        rwBind rwChildren (fun ch =>
          match findLongNameAlias ch axisName0 with
          | some k => rwPure k
          | none => rwPure axisName0)) (fun axisName =>
      gaeResolvedRW sig axisName))

/-- The group object itself, as `__init__` stores a reference to it
(reading the reference, not copying or altering the store). -/
def rwGetGroup : RW Group := fun g => (g, g)

/-- `NXdata.__init__` against the store. -/
def NXdataInitRW : RW (Except Err NXview) :=
  rwBind validateRW (fun vr =>
    match vr with
    | Except.error e => rwPure (Except.error e)
    | Except.ok (some _) => rwPure (Except.error Err.notValidNXdata)
    | Except.ok none =>
      rwBind (rwGetAttr "signal") (fun sv =>
        match sv with
        | some (AttrVal.s sname) =>
          rwBind (rwGetChild sname) (fun c =>
            match c with
            | some (Node.ds sig) =>
              let nd := sig.shape.length
              rwBind (axesDatasetNamesRW sig (decide (nd = 1))) (fun ar =>
                match ar with
                | Except.error e => rwPure (Except.error e)
                | Except.ok (adn, cache) =>
                  rwBind (axesNamesFromRW adn) (fun anr =>
                    match anr with
                    | Except.error e => rwPure (Except.error e)
                    | Except.ok anames =>
                      rwBind (axesRW sig) (fun axr =>
                        match axr with
                        | Except.error e => rwPure (Except.error e)
                        | Except.ok axs =>
                          rwBind rwGetGroup (fun g =>
                            rwPure (Except.ok
                              { group := g
                                signalName := sname
                                signal := sig
                                signal_is_0D := decide (nd = 0)
                                signal_is_1D :=
                                  decide (nd = 1) && decide (axs.length ≤ 1)
                                signal_is_2D := decide (nd = 2)
                                signal_is_3D := decide (nd = 3)
                                axes_dataset_names := adn
                                axes_names := anames
                                axes := axs
                                isScatterCache := cache })))))
            | _ => rwPure (Except.error (Err.keyError sname)))
        | _ => rwPure (Except.error (Err.keyError "signal"))))

/-- The `is_scatter` accessor on a constructed view: it consults only
the view's cached fields (`_is_scatter`, `_axes`, the signal's shape),
never the store — its translation performs no store operation at all. -/
def isScatterRW (v : NXview) : RW (Except Err Bool) :=
  rwPure (NXview.isScatterE v)

/-- `is_x_y_value_scatter`, likewise store-free. -/
def isXYValueScatterRW (v : NXview) : RW (Except Err Bool) :=
  rwPure (NXview.isXYValueScatterE v)

/-! General lemmas about the embedded engine. -/

/-- Inversion of the signal resolution. -/
theorem signalOf_inv {g : Group} {sn : String} {sig : Dataset}
    (h : signalOf g = some (sn, sig)) :
    Group.attr g "signal" = some (AttrVal.s sn) ∧
      Group.child g sn = some (Node.ds sig) := by
  unfold signalOf at h
  split at h
  · rename_i n hn
    split at h
    · rename_i d hd
      cases h
      exact ⟨hn, hd⟩
    · exact absurd h (by simp)
  · exact absurd h (by simp)

/-- The errors-shape part returns `True` or the `errorsShape` reason. -/
theorem validateErrorsPart_cases (g : Group) (sig : Dataset) :
    validateErrorsPart g sig = Except.ok none ∨
      validateErrorsPart g sig = Except.ok (some VReason.errorsShape) := by
  unfold validateErrorsPart
  split
  · split
    · exact Or.inr rfl
    · exact Or.inl rfl
  · exact Or.inl rfl

/-- The size consistency check fails only with its two reasons. -/
theorem sizeCheck_fail_shape {ss : List Nat} {S : Nat} {name : String}
    {L : Int} {sc : Bool} {poly : List String} {r : VReason}
    (h : sizeCheck ss S name L sc poly = StepRes.fail r) :
    r = VReason.axisLenMismatch name ∨ r = VReason.axisScatterInconsistent name := by
  unfold sizeCheck at h
  repeat' split at h
  all_goals simp_all

/-- The uncertainty check fails only with the errors-shape reason. -/
theorem uncertaintyCheck_fail_shape {g : Group} {unc : Option (List String)}
    {name : String} {i : Nat} {axis : Dataset} {sc : Bool} {poly : List String}
    {r : VReason}
    (h : uncertaintyCheck g unc name i axis sc poly = Except.ok (StepRes.fail r)) :
    ∃ a b, r = VReason.axisErrorsShape a b := by
  unfold uncertaintyCheck at h
  repeat' split at h
  all_goals first
  | (simp_all; done)
  | (simp only [Except.ok.injEq, StepRes.fail.injEq] at h
     subst h
     exact ⟨_, _, rfl⟩)

/-- The failure reasons a single loop iteration can produce are the
per-axis ones. -/
theorem axisStep_fail_shape {g : Group} {ss : List Nat} {S : Nat}
    {unc : Option (List String)} {name : String} {i : Nat} {sc : Bool}
    {poly : List String} {r : VReason}
    (h : axisStep g ss S unc name i sc poly = Except.ok (StepRes.fail r)) :
    (∃ n, r = VReason.axisNotFound n) ∨ (∃ n, r = VReason.axisNdShape n) ∨
      (∃ n, r = VReason.axisLenMismatch n) ∨
      (∃ n, r = VReason.axisScatterInconsistent n) ∨
      (∃ a b, r = VReason.axisErrorsShape a b) := by
  unfold axisStep axisStepTail at h
  repeat' split at h
  all_goals first
  | (simp_all; done)
  | (simp only [Except.ok.injEq, StepRes.fail.injEq] at h
     subst h
     first
     | simp
     | (rcases sizeCheck_fail_shape (by assumption) with h1 | h1 <;> simp [h1]))
  | (rcases uncertaintyCheck_fail_shape h with ⟨a, b, h1⟩
     simp [h1])

/-- The failure reasons the whole loop can produce are the per-axis
ones. -/
theorem checkAxes_fail_shape {g : Group} {ss : List Nat} {S : Nat}
    {unc : Option (List String)} {names : List String} {i : Nat} {sc : Bool}
    {poly : List String} {r : VReason}
    (h : checkAxes g ss S unc names i sc poly = Except.ok (some r)) :
    (∃ n, r = VReason.axisNotFound n) ∨ (∃ n, r = VReason.axisNdShape n) ∨
      (∃ n, r = VReason.axisLenMismatch n) ∨
      (∃ n, r = VReason.axisScatterInconsistent n) ∨
      (∃ a b, r = VReason.axisErrorsShape a b) := by
  induction names generalizing i sc poly with
  | nil => exact absurd h (by simp [checkAxes])
  | cons name rest ih =>
    unfold checkAxes at h
    split at h
    · exact absurd h (by simp)
    · rename_i heq
      cases h
      exact axisStep_fail_shape heq
    · exact ih h

/-- The interpretation-count check fails only with its three reasons. -/
theorem interpCountCheck_reasons {g : Group} {sig : Dataset} {nd nn : Nat}
    {r : VReason} (h : interpCountCheck g sig nd nn = Except.ok (some r)) :
    r = VReason.noInterpretation ∨ (∃ s, r = VReason.badInterpretation s) ∨
      ∃ a b, r = VReason.interpAxesCount a b := by
  unfold interpCountCheck at h
  repeat' split at h
  all_goals first
  | (simp_all; done)
  | (simp only [Except.ok.injEq, Option.some.injEq] at h
     subst h
     simp)

/-! The claims. -/

/-- Claim C1.  The spec says a view constructed over a validator-accepted
group always completes construction; in fact `is_valid_NXdata` accepts a
1-D signal with two length-1 polynomial axes, yet `NXdata.__init__`
raises while eagerly computing `axes_dataset_names` (the list length
differs from the signal's ndim, the group is not classified as a
scatter, and the `INTERPDIM[self.interpretation]` lookup with
interpretation `None` raises `KeyError`). -/
theorem c1_validator_accepts_but_init_raises :
    is_valid_NXdata groupPolyPair = true ∧
      NXdataInit groupPolyPair = Except.error (Err.keyError "interpretation") :=
  ⟨rfl, rfl⟩

/-- Claim C3.  The round-trip part holds: an axis of length 8 with
`first_good = 2` and `last_good = 5` resolves to the 4 elements
`axis[2:6]`.  But a *declared* `last_good = 0` is dropped by the
truthiness test `attrs.get("last_good") or (len(axis) - 1)` of the
`axes` property: on a validator-accepted group whose axis of length 5
declares `last_good = 0`, the resolved axis keeps all 5 elements instead
of the documented `axis[0:1]`. -/
theorem c3_good_range_truthiness :
    (∃ v, NXdataInit groupGoodRange = Except.ok v ∧
        v.axes = [some (AxisData.arr ⟨[4], [], [2, 3, 4, 5]⟩)]) ∧
      is_valid_NXdata groupLastGoodZero = true ∧
      ∃ v, NXdataInit groupLastGoodZero = Except.ok v ∧
        v.axes = [some (AxisData.arr ⟨[5], [], [10, 11, 12, 13, 14]⟩)] :=
  ⟨⟨_, rfl, rfl⟩, rfl, ⟨_, rfl, rfl⟩⟩

/-- Claim C9.  The "more @axes than signal dimensions" rejection
requires `1 < ndim`, so it can never fire for a 0-dimensional signal,
whatever the `@axes` length; and a 0-D signal with `@axes` naming one
existing element-count-1 axis passes validation (the empty product
`signal_size = 1` matches the axis length). -/
theorem c9_zero_dim_no_more_axes :
    (∀ (g : Group) (sn : String) (sig : Dataset), signalOf g = some (sn, sig) →
        sig.shape = [] →
        ∀ k l, validate g ≠ Except.ok (some (VReason.moreAxes k l))) ∧
      is_valid_NXdata groupZeroDim = true := by
  constructor
  · intro g sn sig hsig hsh k l h
    obtain ⟨ha, hc⟩ := signalOf_inv hsig
    unfold validate at h
    split at h
    · simp at h
    · rw [ha] at h
      simp only [] at h
      rw [hc] at h
      simp only [] at h
      unfold validateAxesPart at h
      rw [hsh] at h
      simp only [List.length_nil] at h
      repeat' split at h
      all_goals first
      | (simp at h; done)
      | (simp_all; done)
      | (simp only [Except.ok.injEq, Option.some.injEq] at h
         subst h
         rename_i hr
         first
         | (rcases checkAxes_fail_shape hr with
              ⟨n, h1⟩ | ⟨n, h1⟩ | ⟨n, h1⟩ | ⟨n, h1⟩ | ⟨a, b, h1⟩ <;>
              simp at h1)
         | (rcases interpCountCheck_reasons hr with h1 | ⟨s, h1⟩ | ⟨a, b, h1⟩ <;>
              simp at h1))
      | (rcases validateErrorsPart_cases g sig with hv | hv <;>
           rw [hv] at h <;> simp at h)
  · rfl

/-- Witness for claim C9 at the concrete 0-D group. -/
theorem c9_zero_dim_no_more_axes_witness :
    validate groupZeroDim ≠ Except.ok (some (VReason.moreAxes 1 0)) :=
  c9_zero_dim_no_more_axes.1 groupZeroDim "s" ⟨[], [], [42]⟩ rfl rfl 1 0

/-- Claim C10.  The `errors` accessor returns the child named
`"errors"` exactly when one exists, with no dataset check; this is
reachable on valid views because the validator's shape check on
`"errors"` applies only to dataset children — witnessed by a valid group
whose `"errors"` child is a sub-group. -/
theorem c10_errors_child_returned :
    (∀ (g : Group) (v : NXview), NXdataInit g = Except.ok v →
        NXview.errorsOf v = Group.child v.group "errors") ∧
      is_valid_NXdata groupErrorsSubgroup = true ∧
      ∃ v, NXdataInit groupErrorsSubgroup = Except.ok v ∧
        NXview.errorsOf v = some (Node.sub [] []) := by
  refine ⟨?_, rfl, ⟨_, rfl, rfl⟩⟩
  intro g v _
  cases hc : Group.child v.group "errors" <;> simp [NXview.errorsOf, hc]

/-- Witness for claim C10 at the concrete group with a sub-group
`"errors"` child. -/
theorem c10_errors_child_returned_witness :
    ∃ v, NXdataInit groupErrorsSubgroup = Except.ok v ∧
      NXview.errorsOf v = Group.child v.group "errors" :=
  ⟨_, rfl, c10_errors_child_returned.1 groupErrorsSubgroup _ rfl⟩

/-! Lemmas about the order-dependent scatter classification of the
per-axis loop. -/

/-- A `"."` entry leaves the loop state unchanged. -/
theorem axisStep_dot {g : Group} {ss : List Nat} {S : Nat}
    {unc : Option (List String)} {i : Nat} {sc : Bool} {poly : List String} :
    axisStep g ss S unc "." i sc poly = Except.ok (StepRes.cont sc poly) := by
  simp [axisStep]

/-- The size check never resurrects a broken scatter flag. -/
theorem sizeCheck_cont_false {ss : List Nat} {S : Nat} {name : String}
    {L : Int} {poly poly1 : List String} {sc1 : Bool}
    (h : sizeCheck ss S name L false poly = StepRes.cont sc1 poly1) :
    sc1 = false := by
  unfold sizeCheck at h
  repeat' split at h
  all_goals simp_all

/-- The uncertainty check never changes the loop state on survival. -/
theorem uncertaintyCheck_cont {g : Group} {unc : Option (List String)}
    {name : String} {i : Nat} {axis : Dataset} {sc sc1 : Bool}
    {poly poly1 : List String}
    (h : uncertaintyCheck g unc name i axis sc poly = Except.ok (StepRes.cont sc1 poly1)) :
    sc1 = sc ∧ poly1 = poly := by
  unfold uncertaintyCheck at h
  repeat' split at h
  all_goals simp_all

/-- Once the scatter flag is down, a surviving iteration keeps it down. -/
theorem axisStep_cont_false {g : Group} {ss : List Nat} {S : Nat}
    {unc : Option (List String)} {name : String} {i : Nat}
    {poly poly1 : List String} {sc1 : Bool}
    (h : axisStep g ss S unc name i false poly = Except.ok (StepRes.cont sc1 poly1)) :
    sc1 = false := by
  unfold axisStep axisStepTail at h
  repeat' split at h
  all_goals first
  | (simp_all; done)
  | (rename_i hsz
     obtain ⟨h1, h2⟩ := uncertaintyCheck_cont h
     subst h1
     exact sizeCheck_cont_false hsz)

/-- A missing (or non-dataset) axis fails its iteration. -/
theorem axisStep_missing {g : Group} {ss : List Nat} {S : Nat}
    {unc : Option (List String)} {name : String} {i : Nat} {sc : Bool}
    {poly : List String} (hdot : name ≠ ".")
    (h : axisLenOf g name = Except.ok none) :
    axisStep g ss S unc name i sc poly =
      Except.ok (StepRes.fail (VReason.axisNotFound name)) := by
  unfold axisLenOf at h
  cases hax : Group.child g name with
  | none => simp [axisStep, hdot, hax]
  | some nd =>
    cases nd with
    | sub a c => simp [axisStep, hdot, hax]
    | ds axis =>
      cases hld : axisLenDs axis with
      | error e => rw [hax] at h; simp [hld] at h
      | ok l => rw [hax] at h; simp [hld] at h

/-- A signal-sized axis reached with the scatter flag down fails with
the scatter-inconsistency reason. -/
theorem axisStep_full_fail {g : Group} {ss : List Nat} {S : Nat}
    {unc : Option (List String)} {name : String} {i : Nat}
    {poly : List String} (hdot : name ≠ ".")
    (h : axisLenOf g name = Except.ok (some ((S : Nat) : Int))) :
    axisStep g ss S unc name i false poly =
      Except.ok (StepRes.fail (VReason.axisScatterInconsistent name)) := by
  unfold axisLenOf at h
  cases hax : Group.child g name with
  | none => rw [hax] at h; simp at h
  | some nd =>
    cases nd with
    | sub a c => rw [hax] at h; simp at h
    | ds axis =>
      cases hld : axisLenDs axis with
      | error e => rw [hax] at h; simp [hld] at h
      | ok L =>
        rw [hax] at h
        simp [hld] at h
        subst h
        simp [axisStep, hdot, hax, hld, axisStepTail, sizeCheck]

/-- An axis whose `axis_len` differs from the signal size either fails
its iteration or survives with the scatter flag down. -/
theorem axisStep_short {g : Group} {ss : List Nat} {S : Nat}
    {unc : Option (List String)} {name : String} {i : Nat} {sc : Bool}
    {poly : List String} {L : Int} (hdot : name ≠ ".")
    (h : axisLenOf g name = Except.ok (some L)) (hne : L ≠ (S : Int)) :
    (∃ e, axisStep g ss S unc name i sc poly = Except.error e) ∨
      (∃ r, axisStep g ss S unc name i sc poly = Except.ok (StepRes.fail r)) ∨
      ∃ poly1, axisStep g ss S unc name i sc poly =
        Except.ok (StepRes.cont false poly1) := by
  unfold axisLenOf at h
  cases hax : Group.child g name with
  | none => rw [hax] at h; simp at h
  | some nd =>
    cases nd with
    | sub a c => rw [hax] at h; simp at h
    | ds axis =>
      cases hld : axisLenDs axis with
      | error e => rw [hax] at h; simp [hld] at h
      | ok L1 =>
        rw [hax] at h
        simp [hld] at h
        subst h
        by_cases hnd : axis.shape.length ≠ 1 ∧ L1 ≠ (S : Int)
        · refine Or.inr (Or.inl ⟨VReason.axisNdShape name, ?_⟩)
          simp only [axisStep, hdot, if_false, hax, hld]
          simp [hnd]
        · have hstep : axisStep g ss S unc name i sc poly =
              axisStepTail g ss S unc name i axis L1 sc poly := by
            simp only [axisStep, hdot, if_false, hax, hld]
            simp [hnd]
          rw [hstep]
          unfold axisStepTail
          have hsz : sizeCheck ss S name L1 sc poly =
                StepRes.fail (VReason.axisLenMismatch name) ∨
              ∃ poly1, sizeCheck ss S name L1 sc poly = StepRes.cont false poly1 := by
            unfold sizeCheck
            rw [if_pos hne]
            split
            · exact Or.inl rfl
            · exact Or.inr ⟨_, rfl⟩
          rcases hsz with hsz | ⟨poly1, hsz⟩
          · rw [hsz]
            exact Or.inr (Or.inl ⟨_, rfl⟩)
          · rw [hsz]
            cases hu : uncertaintyCheck g unc name i axis false poly1 with
            | error e => exact Or.inl ⟨e, by simp [hu]⟩
            | ok sr =>
              cases sr with
              | fail r => exact Or.inr (Or.inl ⟨r, by simp [hu]⟩)
              | cont sc2 poly2 =>
                obtain ⟨h1, h2⟩ := uncertaintyCheck_cont hu
                subst h1
                exact Or.inr (Or.inr ⟨poly2, by simp [hu]⟩)

/-- Once the scatter flag is down, a later signal-sized axis makes the
loop reject (or raise) — it can never return `True`. -/
theorem checkAxes_no_ok_fullsize {g : Group} {ss : List Nat} {S : Nat}
    {unc : Option (List String)} :
    ∀ (names : List String) (i : Nat) (poly : List String) (q : Nat) (b : String),
      names.get? q = some b → b ≠ "." →
      axisLenOf g b = Except.ok (some (S : Int)) →
      checkAxes g ss S unc names i false poly ≠ Except.ok none := by
  intro names
  induction names with
  | nil => intro i poly q b hq; simp at hq
  | cons n rest ih =>
    intro i poly q b hq hbdot hblen h
    cases q with
    | zero =>
      simp only [List.get?_cons_zero, Option.some.injEq] at hq
      subst hq
      rw [checkAxes, axisStep_full_fail hbdot hblen] at h
      simp at h
    | succ q0 =>
      simp only [List.get?_cons_succ] at hq
      rw [checkAxes] at h
      cases hstep : axisStep g ss S unc n i false poly with
      | error e => rw [hstep] at h; simp at h
      | ok sr =>
        rw [hstep] at h
        cases sr with
        | fail r => simp at h
        | cont sc1 poly1 =>
          have hsc1 := axisStep_cont_false hstep
          subst hsc1
          exact ih (i + 1) poly1 q0 b hq hbdot hblen h

/-- Claim C5's core: an axis whose `axis_len` differs from the signal
size listed before a signal-sized axis makes the loop reject or raise,
never return `True`. -/
theorem checkAxes_no_ok_order {g : Group} {ss : List Nat} {S : Nat}
    {unc : Option (List String)} :
    ∀ (names : List String) (i : Nat) (sc : Bool) (poly : List String)
      (p q : Nat) (a b : String) (La : Int),
      p < q → names.get? p = some a → names.get? q = some b →
      a ≠ "." → b ≠ "." →
      axisLenOf g a = Except.ok (some La) → La ≠ (S : Int) →
      axisLenOf g b = Except.ok (some (S : Int)) →
      checkAxes g ss S unc names i sc poly ≠ Except.ok none := by
  intro names
  induction names with
  | nil => intro i sc poly p q a b La _ hp; simp at hp
  | cons n rest ih =>
    intro i sc poly p q a b La hpq hp hq hadot hbdot hla hne hblen h
    cases p with
    | zero =>
      simp only [List.get?_cons_zero, Option.some.injEq] at hp
      subst hp
      cases q with
      | zero => omega
      | succ q0 =>
        simp only [List.get?_cons_succ] at hq
        rcases @axisStep_short g ss S unc _ i sc poly _ hadot hla hne with
          ⟨e, hstep⟩ | ⟨r, hstep⟩ | ⟨poly1, hstep⟩
        · rw [checkAxes, hstep] at h; simp at h
        · rw [checkAxes, hstep] at h; simp at h
        · rw [checkAxes, hstep] at h
          exact checkAxes_no_ok_fullsize rest (i + 1) poly1 q0 b hq hbdot hblen h
    | succ p0 =>
      cases q with
      | zero => omega
      | succ q0 =>
        simp only [List.get?_cons_succ] at hp hq
        rw [checkAxes] at h
        cases hstep : axisStep g ss S unc n i sc poly with
        | error e => rw [hstep] at h; simp at h
        | ok sr =>
          rw [hstep] at h
          cases sr with
          | fail r => simp at h
          | cont sc1 poly1 =>
            exact ih (i + 1) sc1 poly1 p0 q0 a b La (by omega) hp hq
              hadot hbdot hla hne hblen h

/-- Plumbing: with a resolved signal and an explicit group `@axes` list,
if the per-axis loop cannot return `True` (for the uncertainty list the
validator would feed it), then `is_valid_NXdata` returns `False`. -/
theorem is_valid_false_of_loop {g : Group} {sn : String} {sig : Dataset}
    {names : List String}
    (hsig : signalOf g = some (sn, sig))
    (haxattr : Group.attr g "axes" = some (AttrVal.ls names))
    (hloop : ∀ unc, uncertaintiesPart g sig names = Except.ok (some unc) →
      checkAxes g sig.shape (listProd sig.shape) unc names 0 true [] ≠ Except.ok none) :
    is_valid_NXdata g = false := by
  obtain ⟨ha, hc⟩ := signalOf_inv hsig
  unfold is_valid_NXdata
  cases hv : validate g with
  | error e => rfl
  | ok o =>
    cases o with
    | some r => rfl
    | none =>
      exfalso
      unfold validate at hv
      split at hv
      · simp at hv
      · rw [ha] at hv
        simp only [] at hv
        rw [hc] at hv
        simp only [] at hv
        unfold validateAxesPart at hv
        rw [haxattr] at hv
        simp only [normalizeNames] at hv
        split at hv
        · simp at hv
        · split at hv
          · simp at hv
          · simp at hv
          · split at hv
            · simp at hv
            · simp at hv
            · rename_i unc hunc
              split at hv
              · simp at hv
              · simp at hv
              · rename_i hck
                exact hloop unc hunc hck

/-- Claim C5.  In the validator's per-axis loop, an axis whose
good-range-trimmed length differs from the signal's total element count
listed *before* an axis whose length equals that count forces
`is_valid_NXdata` to return `False`; the result depends on the listed
order — the concrete pair `["p", "f"]` versus `["f", "p"]` flips the
verdict. -/
theorem c5_axis_order_dependence :
    (∀ (g : Group) (sn : String) (sig : Dataset) (names : List String)
        (p q : Nat) (a b : String) (La : Int),
        signalOf g = some (sn, sig) →
        Group.attr g "axes" = some (AttrVal.ls names) →
        p < q → names.get? p = some a → names.get? q = some b →
        a ≠ "." → b ≠ "." →
        axisLenOf g a = Except.ok (some La) →
        La ≠ (listProd sig.shape : Int) →
        axisLenOf g b = Except.ok (some (listProd sig.shape : Int)) →
        is_valid_NXdata g = false) ∧
      is_valid_NXdata groupOrderPF = false ∧
      is_valid_NXdata groupOrderFP = true := by
  refine ⟨?_, rfl, rfl⟩
  intro g sn sig names p q a b La hsig hax hpq hp hq hadot hbdot hla hne hblen
  exact is_valid_false_of_loop hsig hax (fun unc _ =>
    checkAxes_no_ok_order names 0 true [] p q a b La hpq hp hq
      hadot hbdot hla hne hblen)

/-- Witness for claim C5 at the concrete polynomial-before-full pair. -/
theorem c5_axis_order_dependence_witness :
    is_valid_NXdata groupOrderPF = false :=
  c5_axis_order_dependence.1 groupOrderPF "s"
    ⟨[10], [], [0, 1, 2, 3, 4, 5, 6, 7, 8, 9]⟩ ["p", "f"] 0 1 "p" "f" 1
    rfl rfl (by decide) rfl rfl (by decide) (by decide) rfl (by decide) rfl

/-! Lemmas for the per-axis uncertainty shape check (claim C2). -/

/-- The size check grows `polynomial_axes_names` only with the current
axis, and only when its length is 1 or 2. -/
theorem sizeCheck_cont_poly {ss : List Nat} {S : Nat} {name : String}
    {L : Int} {sc sc1 : Bool} {poly poly1 : List String}
    (h : sizeCheck ss S name L sc poly = StepRes.cont sc1 poly1) :
    poly1 = poly ∨ (poly1 = poly ++ [name] ∧ (L = 1 ∨ L = 2)) := by
  unfold sizeCheck at h
  repeat' split at h
  all_goals simp_all

/-- A surviving loop iteration grows `polynomial_axes_names` only with
its own axis name, and only when that axis's length is 1 or 2. -/
theorem axisStep_cont_poly {g : Group} {ss : List Nat} {S : Nat}
    {unc : Option (List String)} {name : String} {i : Nat} {sc sc1 : Bool}
    {poly poly1 : List String}
    (h : axisStep g ss S unc name i sc poly = Except.ok (StepRes.cont sc1 poly1)) :
    poly1 = poly ∨ (poly1 = poly ++ [name] ∧
      ∃ ax L, Group.child g name = some (Node.ds ax) ∧
        axisLenDs ax = Except.ok L ∧ (L = 1 ∨ L = 2)) := by
  unfold axisStep axisStepTail at h
  repeat' split at h
  all_goals first
  | (simp_all; done)
  | (obtain ⟨h1, h2⟩ := uncertaintyCheck_cont h
     subst h2
     rcases sizeCheck_cont_poly (by assumption) with h3 | ⟨h3, h4⟩
     · exact Or.inl h3
     · exact Or.inr ⟨h3, _, _, by assumption, by assumption, h4⟩)

/-- One iteration at the axis matching C2's conditions (non-polynomial
axis, no `<name>_errors` child, `@uncertainties` entry naming a child
dataset of different shape) always fails or raises. -/
theorem axisStep_uncshape {g : Group} {ss : List Nat} {S : Nat}
    {us : List String} {n en : String} {i : Nat} {sc : Bool}
    {poly : List String} {ax e : Dataset} {L : Int}
    (hdot : n ≠ ".") (haxc : Group.child g n = some (Node.ds ax))
    (hld : axisLenDs ax = Except.ok L) (hL1 : L ≠ 1) (hL2 : L ≠ 2)
    (herrc : Group.child g (n ++ "_errors") = none)
    (hen : us.get? i = some en)
    (henc : Group.child g en = some (Node.ds e))
    (hshape : e.shape ≠ ax.shape) (hpoly : n ∉ poly) :
    (∃ e0, axisStep g ss S (some us) n i sc poly = Except.error e0) ∨
      ∃ r, axisStep g ss S (some us) n i sc poly =
        Except.ok (StepRes.fail r) := by
  have hstep : axisStep g ss S (some us) n i sc poly =
      (if ax.shape.length ≠ 1 ∧ L ≠ (S : Int) then
        Except.ok (StepRes.fail (VReason.axisNdShape n))
      else axisStepTail g ss S (some us) n i ax L sc poly) := by
    simp only [axisStep, hdot, if_false, haxc, hld]
  rw [hstep]
  split
  · exact Or.inr ⟨_, rfl⟩
  · unfold axisStepTail
    cases hsz : sizeCheck ss S n L sc poly with
    | fail r => exact Or.inr ⟨r, rfl⟩
    | cont sc1 poly1 =>
      have hpoly1 : n ∉ poly1 := by
        rcases sizeCheck_cont_poly hsz with h3 | ⟨h3, h4⟩
        · rw [h3]; exact hpoly
        · rcases h4 with h4 | h4 <;> simp [h4] at hL1 hL2
      refine Or.inr ⟨VReason.axisErrorsShape en n, ?_⟩
      simp only [uncertaintyCheck, herrc, hen, henc]
      simp [hpoly1, hshape]

/-- Claim C2's core: an axis position satisfying the uncertainty
shape-mismatch conditions makes the loop reject or raise, never return
`True`. -/
theorem checkAxes_no_ok_uncshape {g : Group} {ss : List Nat} {S : Nat}
    {us : List String} :
    ∀ (names : List String) (i : Nat) (sc : Bool) (poly : List String)
      (p : Nat) (n en : String) (ax e : Dataset) (L : Int),
      names.get? p = some n → n ≠ "." →
      Group.child g n = some (Node.ds ax) →
      axisLenDs ax = Except.ok L → L ≠ 1 → L ≠ 2 →
      Group.child g (n ++ "_errors") = none →
      us.get? (i + p) = some en →
      Group.child g en = some (Node.ds e) →
      e.shape ≠ ax.shape → n ∉ poly →
      checkAxes g ss S (some us) names i sc poly ≠ Except.ok none := by
  intro names
  induction names with
  | nil => intro i sc poly p n en ax e L hp; simp at hp
  | cons m rest ih =>
    intro i sc poly p n en ax e L hp hdot haxc hld hL1 hL2 herrc hen henc
      hshape hpoly h
    cases p with
    | zero =>
      simp only [List.get?_cons_zero, Option.some.injEq] at hp
      subst hp
      rw [Nat.add_zero] at hen
      rcases @axisStep_uncshape g ss S us _ _ i sc poly _ _ _
          hdot haxc hld hL1 hL2 herrc hen henc hshape hpoly with
        ⟨e0, hstep⟩ | ⟨r, hstep⟩
      · rw [checkAxes, hstep] at h; simp at h
      · rw [checkAxes, hstep] at h; simp at h
    | succ p0 =>
      simp only [List.get?_cons_succ] at hp
      rw [checkAxes] at h
      cases hstep : axisStep g ss S (some us) m i sc poly with
      | error e1 => rw [hstep] at h; simp at h
      | ok sr =>
        rw [hstep] at h
        cases sr with
        | fail r => simp at h
        | cont sc1 poly1 =>
          have hpoly1 : n ∉ poly1 := by
            rcases axisStep_cont_poly hstep with h3 | ⟨h3, ax1, L1, hax1, hld1, h4⟩
            · rw [h3]; exact hpoly
            · subst h3
              intro hmem
              rcases List.mem_append.mp hmem with hmem | hmem
              · exact hpoly hmem
              · simp only [List.mem_singleton] at hmem
                subst hmem
                rw [haxc] at hax1
                cases hax1
                rw [hld] at hld1
                cases hld1
                rcases h4 with h4 | h4
                · exact hL1 h4
                · exact hL2 h4
          have hen1 : us.get? ((i + 1) + p0) = some en := by
            have harith : (i + 1) + p0 = i + (p0 + 1) := by omega
            rw [harith]
            exact hen
          exact ih (i + 1) sc1 poly1 p0 n en ax e L hp hdot haxc hld hL1 hL2
            herrc hen1 henc hshape hpoly1 h

/-- Counterexample to claim C2 as stated: on this group the per-axis
errors dataset resolves as the `x_errors` *child* (shape `(3,)`), the
axis `x` (shape `(5,)`, length 5) is not polynomial, the shapes differ —
yet `is_valid_NXdata` returns `True`, because the validator's shape
check is guarded by `errors_name not in group`: an existing
`<axis_name>_errors` child is never shape-checked. -/
theorem c2_child_errors_shape_unchecked :
    is_valid_NXdata groupChildErrBadShape = true ∧
      Group.child groupChildErrBadShape "x_errors" =
        some (Node.ds ⟨[3], [], [1, 1, 1]⟩) ∧
      Group.child groupChildErrBadShape "x" =
        some (Node.ds ⟨[5], [], [0, 1, 2, 3, 4]⟩) ∧
      axisLenOf groupChildErrBadShape "x" = Except.ok (some 5) :=
  ⟨rfl, rfl, rfl, rfl⟩

/-- Claim C2 as amended: the validator shape-checks only the
`@uncertainties`-resolved per-axis errors dataset, and only when the
`<axis_name>_errors` child is absent; under those conditions (axis not
polynomial, the indexed name an existing child dataset) a shape mismatch
forces `is_valid_NXdata` to return `False`. -/
theorem c2_uncertainties_shape_rejected :
    ∀ (g : Group) (sn : String) (sig : Dataset) (names us : List String)
      (uv : AttrVal) (p : Nat) (n en : String) (ax e : Dataset) (L : Int),
      signalOf g = some (sn, sig) →
      Group.attr g "axes" = some (AttrVal.ls names) →
      names.get? p = some n → n ≠ "." →
      Group.child g n = some (Node.ds ax) →
      axisLenDs ax = Except.ok L → L ≠ 1 → L ≠ 2 →
      Group.child g (n ++ "_errors") = none →
      uncOf g sig = some uv → normalizeNames uv = Except.ok us →
      us.get? p = some en →
      Group.child g en = some (Node.ds e) →
      e.shape ≠ ax.shape →
      is_valid_NXdata g = false := by
  intro g sn sig names us uv p n en ax e L hsig hax hp hdot haxc hld hL1 hL2
    herrc huv hus hen henc hshape
  apply is_valid_false_of_loop hsig hax
  intro unc hunc
  unfold uncertaintiesPart at hunc
  rw [huv] at hunc
  simp only [hus] at hunc
  split at hunc
  · simp at hunc
  · simp only [Except.ok.injEq, Option.some.injEq] at hunc
    subst hunc
    refine checkAxes_no_ok_uncshape names 0 true [] p n en ax e L
      hp hdot haxc hld hL1 hL2 herrc ?_ henc hshape (by simp)
    rw [Nat.zero_add]
    exact hen

/-- Witness for the amended claim C2 at the concrete group whose
`@uncertainties` entry has the wrong shape. -/
theorem c2_uncertainties_shape_rejected_witness :
    is_valid_NXdata groupUncErrBadShape = false :=
  c2_uncertainties_shape_rejected groupUncErrBadShape "s"
    ⟨[5], [], [0, 1, 2, 3, 4]⟩ ["x"] ["xu"] (AttrVal.ls ["xu"]) 0 "x" "xu"
    ⟨[5], [], [0, 1, 2, 3, 4]⟩ ⟨[3], [], [1, 1, 1]⟩ 5
    rfl rfl rfl (by decide) rfl rfl (by decide) (by decide) rfl rfl rfl rfl
    rfl (by decide)

/-! Lemmas about `mapME` and view construction (claims C4, C6, C7). -/

theorem mapME_length {α β : Type} {f : α → Except Err β} :
    ∀ {xs : List α} {ys : List β}, mapME f xs = Except.ok ys →
      ys.length = xs.length := by
  intro xs
  induction xs with
  | nil => intro ys h; simp [mapME] at h; simp [← h]
  | cons x rest ih =>
    intro ys h
    unfold mapME at h
    split at h
    · simp at h
    · split at h
      · simp at h
      · rename_i y hy ys1 hys
        simp only [Except.ok.injEq] at h
        subst h
        simp [ih hys]

theorem mapME_get {α β : Type} {f : α → Except Err β} :
    ∀ {xs : List α} {ys : List β}, mapME f xs = Except.ok ys →
      ∀ {k : Nat} {x : α}, xs.get? k = some x →
        ∃ y, ys.get? k = some y ∧ f x = Except.ok y := by
  intro xs
  induction xs with
  | nil => intro ys h k x hk; simp at hk
  | cons x0 rest ih =>
    intro ys h k x hk
    unfold mapME at h
    cases hy : f x0 with
    | error e => rw [hy] at h; simp at h
    | ok y =>
      rw [hy] at h
      cases hys : mapME f rest with
      | error e => rw [hys] at h; simp at h
      | ok ys1 =>
        rw [hys] at h
        simp only [Except.ok.injEq] at h
        subst h
        cases k with
        | zero =>
          simp only [List.get?_cons_zero, Option.some.injEq] at hk
          subst hk
          exact ⟨y, rfl, hy⟩
        | succ k0 =>
          simp only [List.get?_cons_succ] at hk ⊢
          exact ih hys hk

/-- Inversion of `NXdata.__init__`: a successful construction exposes
all intermediate computations and the view's fields. -/
theorem NXdataInit_inv {g : Group} {v : NXview}
    (h : NXdataInit g = Except.ok v) :
    validate g = Except.ok none ∧
      ∃ sn sig adn cache anames axs,
        Group.attr g "signal" = some (AttrVal.s sn) ∧
        Group.child g sn = some (Node.ds sig) ∧
        axesDatasetNamesE g sig (decide (sig.shape.length = 1)) =
          Except.ok (adn, cache) ∧
        axesNamesFrom g adn = Except.ok anames ∧
        axesE g sig = Except.ok axs ∧
        v.group = g ∧ v.signalName = sn ∧ v.signal = sig ∧
        v.axes_dataset_names = adn ∧ v.axes_names = anames ∧ v.axes = axs ∧
        v.isScatterCache = cache ∧
        v.signal_is_1D =
          (decide (sig.shape.length = 1) && decide (axs.length ≤ 1)) := by
  unfold NXdataInit at h
  cases hval : validate g with
  | error e => rw [hval] at h; simp at h
  | ok o =>
    cases o with
    | some r => rw [hval] at h; simp at h
    | none =>
      rw [hval] at h
      simp only [] at h
      cases hsn : Group.attr g "signal" with
      | none => rw [hsn] at h; simp at h
      | some av =>
        cases av with
        | ls l => rw [hsn] at h; simp at h
        | i n => rw [hsn] at h; simp at h
        | s sn =>
          rw [hsn] at h
          simp only [] at h
          cases hsig : Group.child g sn with
          | none => rw [hsig] at h; simp at h
          | some nd =>
            cases nd with
            | sub a c => rw [hsig] at h; simp at h
            | ds sig =>
              rw [hsig] at h
              simp only [] at h
              cases hadn : axesDatasetNamesE g sig (decide (sig.shape.length = 1)) with
              | error e => rw [hadn] at h; simp at h
              | ok pr =>
                obtain ⟨adn, cache⟩ := pr
                rw [hadn] at h
                simp only [] at h
                cases hnm : axesNamesFrom g adn with
                | error e => rw [hnm] at h; simp at h
                | ok anames =>
                  rw [hnm] at h
                  simp only [] at h
                  cases haxs : axesE g sig with
                  | error e => rw [haxs] at h; simp at h
                  | ok axs =>
                    rw [haxs] at h
                    simp only [Except.ok.injEq] at h
                    subst h
                    exact ⟨rfl, sn, sig, adn, cache, anames, axs, rfl, hsig,
                      hadn, hnm, haxs, rfl, rfl, rfl, rfl, rfl, rfl, rfl, rfl⟩

/-- When the *group* carries `@axes` and its normalized length equals
the signal's ndim, `axes_dataset_names` is the positional name list
(`"."` to `None`) and leaves the `_is_scatter` cache empty. -/
theorem adnE_group_equal {g : Group} {sig : Dataset} {b : Bool}
    {av : AttrVal} {names : List String}
    (hax : Group.attr g "axes" = some av)
    (hn : normalizeNames av = Except.ok names)
    (hlen : names.length = sig.shape.length) :
    axesDatasetNamesE g sig b =
      Except.ok (names.map (fun n => if n = "." then none else some n), none) := by
  unfold axesDatasetNamesE
  rw [hax]
  simp only []
  rw [hn]
  simp only [List.length_map]
  rw [if_pos hlen]

/-- Counterexample to claim C4 as stated: a valid view whose `@axes`
lives only on the *signal* dataset.  `axes_dataset_names` picks it up
(`[some "x"]`) but `axes` only consults the group's attribute and
resolves to `[none]`: the two lists are null at different positions. -/
theorem c4_signal_axes_fallback_mismatch :
    ∃ v, NXdataInit groupSignalAxes = Except.ok v ∧
      v.axes_dataset_names = [some "x"] ∧ v.axes = [none] :=
  ⟨_, rfl, rfl, rfl⟩

/-- Claim C4 as amended: for every valid view built from a group that
*itself* carries an `@axes` attribute whose normalized length equals the
signal's ndim, `axes` and `axes_dataset_names` both have that length and
are null at exactly the positions whose `@axes` entry is `"."`.
(`axes_dataset_names` additionally falls back to the signal's `@axes`,
which `axes` ignores, so the correspondence can fail otherwise.) -/
theorem c4_explicit_axes_null_positions :
    ∀ (g : Group) (v : NXview) (av : AttrVal) (names : List String),
      NXdataInit g = Except.ok v →
      Group.attr g "axes" = some av →
      normalizeNames av = Except.ok names →
      names.length = v.signal.shape.length →
      v.axes_dataset_names.length = names.length ∧
      v.axes.length = names.length ∧
      ∀ k x, names.get? k = some x →
        ((v.axes.get? k = some none ↔ x = ".") ∧
          (v.axes_dataset_names.get? k = some none ↔ x = ".")) := by
  intro g v av names hinit hax hn hlen
  obtain ⟨hval, sn, sig, adn, cache, anames, axs, hsn, hsig, hadn, hnm, haxs,
    hvg, hvsn, hvsig, hvadn, hvnm, hvaxs, hvcache, hv1d⟩ := NXdataInit_inv hinit
  rw [hvsig] at hlen
  rw [adnE_group_equal hax hn hlen] at hadn
  simp only [Except.ok.injEq, Prod.mk.injEq] at hadn
  obtain ⟨hadn1, hcache1⟩ := hadn
  unfold axesE at haxs
  rw [hax] at haxs
  simp only [] at haxs
  rw [hn] at haxs
  simp only [] at haxs
  rw [if_pos hlen] at haxs
  cases hraw : mapME (resolveAxisNode g) names with
  | error e => rw [hraw] at haxs; simp at haxs
  | ok lst =>
    rw [hraw] at haxs
    simp only [] at haxs
    refine ⟨?_, ?_, ?_⟩
    · rw [hvadn, ← hadn1, List.length_map]
    · rw [hvaxs, mapME_length haxs, mapME_length hraw]
    · intro k x hk
      constructor
      · rw [hvaxs]
        obtain ⟨nodeOpt, hk1, hres⟩ := mapME_get hraw hk
        obtain ⟨y, hk2, htrf⟩ := mapME_get haxs hk1
        rw [hk2]
        unfold resolveAxisNode at hres
        by_cases hx : x = "."
        · rw [if_pos hx] at hres
          simp only [Except.ok.injEq] at hres
          subst hres
          simp only [Except.ok.injEq] at htrf
          subst htrf
          simp [hx]
        · rw [if_neg hx] at hres
          cases hc : Group.child g x with
          | none => rw [hc] at hres; simp at hres
          | some nd =>
            rw [hc] at hres
            simp only [Except.ok.injEq] at hres
            subst hres
            simp only [] at htrf
            cases htg : trimGood nd with
            | error e => rw [htg] at htrf; simp at htrf
            | ok t =>
              rw [htg] at htrf
              simp only [Except.ok.injEq] at htrf
              subst htrf
              simp [hx]
      · rw [hvadn, ← hadn1, List.get?_map, hk]
        by_cases hx : x = "." <;> simp [hx]

/-- Witness for the amended claim C4 at the x-y scatter group restricted
to a group-held `@axes` of matching length: the `(10,)` signal with
`@axes` naming one axis. -/
theorem c4_explicit_axes_null_positions_witness :
    ∃ v, NXdataInit groupGoodRange = Except.ok v ∧
      v.axes_dataset_names.length = 1 ∧ v.axes.length = 1 ∧
      ((v.axes.get? 0 = some none ↔ "x" = ".") ∧
        (v.axes_dataset_names.get? 0 = some none ↔ "x" = ".")) := by
  refine ⟨_, rfl, ?_⟩
  have h := c4_explicit_axes_null_positions groupGoodRange _
    (AttrVal.ls ["x"]) ["x"] rfl rfl rfl rfl
  exact ⟨h.1, h.2.1, h.2.2 0 "x" rfl⟩

/-! Lemmas about the `is_scatter` computation (claim C6). -/

/-- The `is_scatter` loop returns `True` iff the accumulator was `True`
and every non-null axis has the signal's total element count. -/
theorem scatterFold_ok_iff {ss : Nat} :
    ∀ (axs : List (Option AxisData)) (acc b : Bool),
      scatterFold ss axs acc = Except.ok b →
      (b = true ↔ (acc = true ∧ ∀ a ∈ axs, ∀ x, a = some x →
        axisSizeE x = Except.ok ss)) := by
  intro axs
  induction axs with
  | nil =>
    intro acc b h
    simp only [scatterFold, Except.ok.injEq] at h
    subst h
    simp
  | cons a rest ih =>
    intro acc b h
    cases a with
    | none =>
      rw [scatterFold] at h
      rw [ih acc b h]
      simp
    | some x =>
      rw [scatterFold] at h
      cases hs : axisSizeE x with
      | error e => rw [hs] at h; simp at h
      | ok s =>
        rw [hs] at h
        simp only [] at h
        rw [ih _ b h]
        constructor
        · intro ⟨h1, h2⟩
          simp only [Bool.and_eq_true, decide_eq_true_eq] at h1
          refine ⟨h1.1, ?_⟩
          intro a ha y hy
          rcases List.mem_cons.mp ha with ha | ha
          · subst ha
            cases hy
            rw [hs, h1.2]
          · exact h2 a ha y hy
        · intro ⟨h1, h2⟩
          constructor
          · have hx := h2 (some x) (List.mem_cons_self _ _) x rfl
            rw [hs] at hx
            simp only [Except.ok.injEq] at hx
            simp [h1, hx]
          · intro a ha y hy
            exact h2 a (List.mem_cons_of_mem _ ha) y hy

/-- If the `is_scatter` loop raises, some non-null axis's size
computation raises (it is not a dataset or array). -/
theorem scatterFold_error_exists {ss : Nat} :
    ∀ (axs : List (Option AxisData)) (acc : Bool) (e : Err),
      scatterFold ss axs acc = Except.error e →
      ∃ x, (some x) ∈ axs ∧ axisSizeE x = Except.error e := by
  intro axs
  induction axs with
  | nil => intro acc e h; simp [scatterFold] at h
  | cons a rest ih =>
    intro acc e h
    cases a with
    | none =>
      rw [scatterFold] at h
      obtain ⟨x, hx1, hx2⟩ := ih acc e h
      exact ⟨x, List.mem_cons_of_mem _ hx1, hx2⟩
    | some x =>
      rw [scatterFold] at h
      cases hs : axisSizeE x with
      | error e1 =>
        rw [hs] at h
        simp only [Except.error.injEq] at h
        subst h
        exact ⟨x, List.mem_cons_self _ _, hs⟩
      | ok s =>
        rw [hs] at h
        simp only [] at h
        obtain ⟨y, hy1, hy2⟩ := ih _ e h
        exact ⟨y, List.mem_cons_of_mem _ hy1, hy2⟩

/-- An `axes_dataset_names` computation that leaves the `_is_scatter`
cache empty forces the resolved axes list to have exactly one entry per
signal dimension. -/
theorem adnE_cache_none_axes_len {g : Group} {sig : Dataset} {b : Bool}
    {adn : List (Option String)} {axs : List (Option AxisData)}
    (h : axesDatasetNamesE g sig b = Except.ok (adn, none))
    (haxs : axesE g sig = Except.ok axs) :
    axs.length = sig.shape.length := by
  unfold axesDatasetNamesE at h
  cases hga : Group.attr g "axes" with
  | some av =>
    rw [hga] at h
    simp only [] at h
    cases hn : normalizeNames av with
    | error e => rw [hn] at h; simp at h
    | ok ns =>
      rw [hn] at h
      simp only [] at h
      split at h
      · rename_i hlen
        rw [List.length_map] at hlen
        unfold axesE at haxs
        rw [hga] at haxs
        simp only [] at haxs
        rw [hn] at haxs
        simp only [] at haxs
        rw [if_pos hlen] at haxs
        cases hraw : mapME (resolveAxisNode g) ns with
        | error e => rw [hraw] at haxs; simp at haxs
        | ok lst =>
          rw [hraw] at haxs
          simp only [] at haxs
          rw [mapME_length haxs, mapME_length hraw, hlen]
      · exfalso
        repeat' split at h
        all_goals simp_all
  | none =>
    rw [hga] at h
    simp only [] at h
    unfold axesE at haxs
    rw [hga] at haxs
    simp only [Except.ok.injEq] at haxs
    subst haxs
    cases hsa : alookup sig.attrs "axes" with
    | none =>
      rw [hsa] at h
      simp [List.length_replicate]
    | some av =>
      rw [hsa] at h
      simp [List.length_replicate]

/-- An `axes_dataset_names` computation that fills the `_is_scatter`
cache computed it from the resolved axes with the given 1-D flag. -/
theorem adnE_cache_some {g : Group} {sig : Dataset} {b : Bool}
    {adn : List (Option String)} {sc : Bool}
    (h : axesDatasetNamesE g sig b = Except.ok (adn, some sc)) :
    ∃ axs, axesE g sig = Except.ok axs ∧
      computeIsScatter b sig.shape axs = Except.ok sc := by
  unfold axesDatasetNamesE at h
  cases hga0 : (match Group.attr g "axes" with
      | some v => some v
      | none => alookup sig.attrs "axes") with
  | none => rw [hga0] at h; simp at h
  | some av =>
    rw [hga0] at h
    simp only [] at h
    cases hn : normalizeNames av with
    | error e => rw [hn] at h; simp at h
    | ok ns =>
      rw [hn] at h
      simp only [] at h
      split at h
      · simp at h
      · cases haxs : axesE g sig with
        | error e => rw [haxs] at h; simp at h
        | ok axs =>
          rw [haxs] at h
          simp only [] at h
          cases hcs : computeIsScatter b sig.shape axs with
          | error e => rw [hcs] at h; simp at h
          | ok sc1 =>
            rw [hcs] at h
            simp only [] at h
            refine ⟨axs, rfl, ?_⟩
            rw [hcs]
            repeat' split at h
            all_goals simp_all

/-- The `is_scatter` computation returns `True` iff its 1-D flag is set
and every non-null axis has the signal's total element count. -/
theorem computeIsScatter_ok_true_iff {b : Bool} {shape : List Nat}
    {axs : List (Option AxisData)} {sc : Bool}
    (h : computeIsScatter b shape axs = Except.ok sc) :
    sc = true ↔ (b = true ∧ ∀ a ∈ axs, ∀ x, a = some x →
      axisSizeE x = Except.ok (listProd shape)) := by
  unfold computeIsScatter at h
  cases b with
  | false => simp_all
  | true =>
    simp at h
    rw [scatterFold_ok_iff axs true sc h]

/-- Claim C6.  On every constructed view, `is_scatter` is `True` iff the
signal has exactly one dimension and every non-null entry of the
resolved axes list has the signal's total element count; concretely the
`(10,)` signal with two `(10,)` axes is a scatter and an x-y-value
scatter. -/
theorem c6_is_scatter_iff :
    (∀ (g : Group) (v : NXview), NXdataInit g = Except.ok v →
        (NXview.isScatterE v = Except.ok true ↔
          (v.signal.shape.length = 1 ∧ ∀ a ∈ v.axes, ∀ x, a = some x →
            axisSizeE x = Except.ok (listProd v.signal.shape)))) ∧
      ∃ v, NXdataInit groupScatterXY = Except.ok v ∧
        NXview.isScatterE v = Except.ok true ∧
        NXview.isXYValueScatterE v = Except.ok true := by
  constructor
  · intro g v hinit
    obtain ⟨hval, sn, sig, adn, cache, anames, axs, hsn, hsig, hadn, hnm, haxs,
      hvg, hvsn, hvsig, hvadn, hvnm, hvaxs, hvcache, hv1d⟩ := NXdataInit_inv hinit
    unfold NXview.isScatterE
    rw [hvcache, hv1d, hvsig, hvaxs]
    cases cache with
    | some sc =>
      simp only []
      obtain ⟨axs2, haxs2, hcs⟩ := adnE_cache_some hadn
      rw [haxs] at haxs2
      simp only [Except.ok.injEq] at haxs2
      subst haxs2
      have hiff := computeIsScatter_ok_true_iff hcs
      simp only [Except.ok.injEq]
      rw [hiff]
      simp
    | none =>
      simp only []
      have hlen := adnE_cache_none_axes_len hadn haxs
      cases hres : computeIsScatter
          (decide (sig.shape.length = 1) && decide (axs.length ≤ 1))
          sig.shape axs with
      | error e =>
        constructor
        · intro habs; simp at habs
        · rintro ⟨hnd1, hall⟩
          unfold computeIsScatter at hres
          split at hres
          · simp at hres
          · obtain ⟨x, hmem, herr⟩ := scatterFold_error_exists axs _ e hres
            rw [hall (some x) hmem x rfl] at herr
            simp at herr
      | ok b2 =>
        have hiff := computeIsScatter_ok_true_iff hres
        simp only [Except.ok.injEq]
        rw [hiff]
        constructor
        · rintro ⟨hb, hall⟩
          simp only [Bool.and_eq_true, decide_eq_true_eq] at hb
          exact ⟨hb.1, hall⟩
        · rintro ⟨hnd1, hall⟩
          refine ⟨?_, hall⟩
          simp only [Bool.and_eq_true, decide_eq_true_eq]
          exact ⟨hnd1, by rw [hlen, hnd1]⟩
  · exact ⟨_, rfl, rfl, rfl⟩

/-- Witness for claim C6 at the concrete x-y scatter view. -/
theorem c6_is_scatter_iff_witness :
    ∃ v, NXdataInit groupScatterXY = Except.ok v ∧
      (NXview.isScatterE v = Except.ok true ↔
        (v.signal.shape.length = 1 ∧ ∀ a ∈ v.axes, ∀ x, a = some x →
          axisSizeE x = Except.ok (listProd v.signal.shape))) :=
  ⟨_, rfl, c6_is_scatter_iff.1 groupScatterXY _ rfl⟩

/-! Lemmas about `get_axis_errors` (claim C7). -/

theorem sliceDataset_error_shape {d : Dataset} {a b : Int} {e : Err}
    (h : sliceDataset d a b = Except.error e) : e = Err.typeError "slice" := by
  unfold sliceDataset at h
  split at h <;> simp_all

theorem pyLen_error_shape {nd : Node} {e : Err}
    (h : pyLen nd = Except.error e) : e = Err.typeError "len" := by
  unfold pyLen at h
  repeat' split at h
  all_goals simp_all

theorem getIntAttrD_error_shape {a : Attrs} {k : String} {d : Int} {e : Err}
    (h : getIntAttrD a k d = Except.error e) : e = Err.typeError k := by
  unfold getIntAttrD at h
  repeat' split at h
  all_goals simp_all

theorem axesNamesListForGAE_error_shape {av : Option AttrVal} {e : Err}
    (h : axesNamesListForGAE av = Except.error e) : e = Err.typeError "axes" := by
  unfold axesNamesListForGAE at h
  repeat' split at h
  all_goals simp_all

theorem uncIndex_error_shape {u : AttrVal} {k : Nat} {e : Err}
    (h : uncIndex u k = Except.error e) :
    e = Err.indexError ∨ e = Err.typeError "uncertainties" := by
  unfold uncIndex at h
  repeat' split at h
  all_goals simp_all

/-- The `@uncertainties` fallback never raises the "does not contain a
dataset named" error. -/
theorem gaeUncert_no_notfound {v : NXview} {n : String} {fg lg : Int}
    {L : Nat} {x : String}
    (h : gaeUncert v n fg lg L = Except.error (Err.axisKeyNotFound x)) :
    False := by
  unfold gaeUncert at h
  repeat' split at h
  all_goals first
  | (simp_all; done)
  | (have hsd := sliceDataset_error_shape (by assumption); simp_all)
  | (have hnl := axesNamesListForGAE_error_shape (by assumption); simp_all)
  | (rcases uncIndex_error_shape (by assumption) with h1 | h1 <;> simp_all)

/-- The `<axis_name>_errors` branch never raises the "does not contain a
dataset named" error. -/
theorem gaeErrorsChild_no_notfound {v : NXview} {n : String} {fg lg : Int}
    {L : Nat} {x : String}
    (h : gaeErrorsChild v n fg lg L = Except.error (Err.axisKeyNotFound x)) :
    False := by
  unfold gaeErrorsChild at h
  repeat' split at h
  all_goals first
  | (simp_all; done)
  | (have hsd := sliceDataset_error_shape (by assumption); simp_all)
  | (exact gaeUncert_no_notfound h)

/-- A `@long_name` alias found among the children names an existing
child. -/
theorem findLongNameAlias_child {name k : String} :
    ∀ {children : List (String × Node)},
      findLongNameAlias children name = some k →
      ∃ nd, alookup children k = some nd := by
  intro children
  induction children with
  | nil => intro h; simp [findLongNameAlias] at h
  | cons c rest ih =>
    intro h
    obtain ⟨ck, cn⟩ := c
    unfold findLongNameAlias at h
    split at h
    · simp only [Option.some.injEq] at h
      subst h
      unfold alookup
      rw [if_pos rfl]
      exact ⟨cn, rfl⟩
    · obtain ⟨nd, hnd⟩ := ih h
      unfold alookup
      split
      · exact ⟨cn, rfl⟩
      · exact ⟨nd, hnd⟩

/-- Once the requested name resolves to an existing child, the rest of
`get_axis_errors` never raises the "does not contain a dataset named"
error. -/
theorem gaeResolved_no_notfound_of_child {v : NXview} {nm x : String}
    {nd0 : Node} (hc : Group.child v.group nm = some nd0)
    (h : gaeResolved v nm = Except.error (Err.axisKeyNotFound x)) : False := by
  unfold gaeResolved at h
  rw [hc] at h
  simp only [] at h
  cases hl : pyLen nd0 with
  | error e =>
    rw [hl] at h
    have := pyLen_error_shape hl
    simp_all
  | ok lenAxis =>
    rw [hl] at h
    simp only [] at h
    cases hfg : getIntAttrD (Node.nattrs nd0) "first_good" 0 with
    | error e =>
      rw [hfg] at h
      have := getIntAttrD_error_shape hfg
      simp_all
    | ok fg =>
      rw [hfg] at h
      simp only [] at h
      cases hlg : getIntAttrD (Node.nattrs nd0) "last_good" ((lenAxis : Int) - 1) with
      | error e =>
        rw [hlg] at h
        have := getIntAttrD_error_shape hlg
        simp_all
      | ok lg =>
        rw [hlg] at h
        simp only [] at h
        exact gaeErrorsChild_no_notfound h

/-- The "does not contain a dataset named" error is raised exactly when
the name matches no child directly and no child carries it as a
`@long_name` alias. -/
theorem getAxisErrors_notfound_inv {v : NXview} {name x : String}
    (h : getAxisErrors v name = Except.error (Err.axisKeyNotFound x)) :
    Group.child v.group name = none ∧
      findLongNameAlias v.group.children name = none := by
  unfold getAxisErrors at h
  cases hc : Group.child v.group name with
  | some nd0 =>
    exfalso
    rw [hc] at h
    simp only [] at h
    exact gaeResolved_no_notfound_of_child hc h
  | none =>
    rw [hc] at h
    simp only [] at h
    cases hal : findLongNameAlias v.group.children name with
    | some k =>
      exfalso
      rw [hal] at h
      simp only [] at h
      obtain ⟨nd, hnd⟩ := findLongNameAlias_child hal
      exact gaeResolved_no_notfound_of_child (hnd : Group.child v.group k = some nd) h
    | none =>
      rw [hal] at h
      simp only [] at h
      exact ⟨rfl, rfl⟩

/-- Counterexample to claim C7 as stated: on this valid view the child
`z` is an existing dataset, yet `get_axis_errors("z")` raises — the
`@uncertainties` branch raises its own `KeyError` when the name is
absent from `@axes`, so the "not found" characterization
"exactly when no child dataset matches" is wrong. -/
theorem c7_raises_for_existing_child :
    ∃ v, NXdataInit groupExtraChild = Except.ok v ∧
      Group.child groupExtraChild "z" = some (Node.ds ⟨[4], [], [5, 5, 5, 5]⟩) ∧
      getAxisErrors v "z" = Except.error (Err.axesNotMention "z") :=
  ⟨_, rfl, rfl, rfl⟩

/-- Claim C7 as amended.  For every constructed view: (A) the "does not
contain a dataset named" error is raised exactly when the name matches
no child directly and no child aliases it via `@long_name` (membership,
not dataset-ness, is what is checked); and for the resolved axis name
`rname` (the name itself when it is a child, else its `@long_name`
alias) with any good range `fg`/`lg` read from the axis: (B) a
`<rname>_errors` child that is a dataset is returned as-is when the
good range is the default, and as the slice `[fg : lg+1]` when it is
not; otherwise (C) with no `@uncertainties` the result is null, and
with `@uncertainties` present (D) a name absent from `@axes` raises the
"does not mention" `KeyError` while (E) a listed name returns the child
named by the `@uncertainties` entry at its first `@axes` position —
as-is for the default good range, sliced to `[fg : lg+1]` otherwise. -/
theorem c7_axis_errors_resolution :
    ∀ (g : Group) (v : NXview) (name : String),
      NXdataInit g = Except.ok v →
      (((Group.child g name = none ∧
            findLongNameAlias g.children name = none) ↔
          ∃ x, getAxisErrors v name = Except.error (Err.axisKeyNotFound x)) ∧
        ∀ rname,
          (((∃ nd1, Group.child g name = some nd1) ∧ rname = name) ∨
            (Group.child g name = none ∧
              findLongNameAlias g.children name = some rname)) →
          ∀ nd0 L fg lg, Group.child g rname = some nd0 →
            pyLen nd0 = Except.ok L →
            getIntAttrD (Node.nattrs nd0) "first_good" 0 = Except.ok fg →
            getIntAttrD (Node.nattrs nd0) "last_good" ((L : Int) - 1) =
              Except.ok lg →
            ((∀ e1, Group.child g (rname ++ "_errors") = some (Node.ds e1) →
                ((fg = 0 ∧ lg = (L : Int) - 1 →
                    getAxisErrors v name =
                      Except.ok (some (AxisData.nd (Node.ds e1)))) ∧
                  (¬(fg = 0 ∧ lg = (L : Int) - 1) →
                    ∀ d1, sliceDataset e1 fg (lg + 1) = Except.ok d1 →
                      getAxisErrors v name =
                        Except.ok (some (AxisData.arr d1))))) ∧
              ((∀ e1, Group.child g (rname ++ "_errors") ≠ some (Node.ds e1)) →
                ((uncOf g v.signal = none →
                    getAxisErrors v name = Except.ok none) ∧
                  ∀ u axNames, uncOf g v.signal = some u →
                    axesNamesListForGAE (axesAttrOf g v.signal) =
                      Except.ok axNames →
                    ((rname ∉ axNames →
                        getAxisErrors v name =
                          Except.error (Err.axesNotMention rname)) ∧
                      ∀ en ndE, rname ∈ axNames →
                        uncIndex u (firstIdx axNames rname) = Except.ok en →
                        Group.child g en = some ndE →
                        ((fg = 0 ∧ lg = (L : Int) - 1 →
                            getAxisErrors v name =
                              Except.ok (some (AxisData.nd ndE))) ∧
                          (¬(fg = 0 ∧ lg = (L : Int) - 1) →
                            ∀ dE d1, ndE = Node.ds dE →
                              sliceDataset dE fg (lg + 1) = Except.ok d1 →
                              getAxisErrors v name =
                                Except.ok (some (AxisData.arr d1))))))))) := by
  intro g v name hinit
  obtain ⟨hval, sn, sig, adn, cache, anames, axs, hsn, hsig, hadn, hnm, haxs,
    hvg, hvsn, hvsig, hvadn, hvnm, hvaxs, hvcache, hv1d⟩ := NXdataInit_inv hinit
  constructor
  · constructor
    · rintro ⟨hc, hal⟩
      refine ⟨name, ?_⟩
      simp only [getAxisErrors, gaeResolved, hvg, hc, hal]
    · rintro ⟨x, hx⟩
      have h2 := getAxisErrors_notfound_inv hx
      rw [hvg] at h2
      exact h2
  · intro rname hr nd0 L fg lg hc hlen hfg hlg
    have hstart : getAxisErrors v name = gaeResolved v rname := by
      rcases hr with ⟨⟨nd1, hcn⟩, rfl⟩ | ⟨hnone, hal⟩
      · simp only [getAxisErrors, hvg, hcn]
      · simp only [getAxisErrors, hvg, hnone, hal]
    have hres : getAxisErrors v name = gaeErrorsChild v rname fg lg L := by
      rw [hstart]
      simp only [gaeResolved, hvg, hc, hlen, hfg, hlg]
    constructor
    · intro e1 he1
      constructor
      · intro hdef
        rw [hres]
        simp only [gaeErrorsChild, hvg, he1]
        rw [if_neg (by simp [hdef.1, hdef.2])]
      · intro hndef d1 hs
        rw [hres]
        simp only [gaeErrorsChild, hvg, he1]
        rw [if_pos (by tauto), hs]
    · intro hnotds
      have hfall : getAxisErrors v name = gaeUncert v rname fg lg L := by
        rw [hres]
        cases hec : Group.child g (rname ++ "_errors") with
        | none => simp only [gaeErrorsChild, hvg, hec]
        | some ndE =>
          cases ndE with
          | ds e1 => exact absurd hec (hnotds e1)
          | sub a c => simp only [gaeErrorsChild, hvg, hec]
      constructor
      · intro hunone
        rw [hfall]
        simp only [gaeUncert, hvg, hunone]
      · intro u axNames hu haxn
        constructor
        · intro hnotmem
          rw [hfall]
          have hcontains : axNames.contains rname = false := by
            simpa using hnotmem
          simp only [gaeUncert, hvg, hu, haxn, hcontains]
          simp
        · intro en ndE hmem hidx hchild
          have hcontains : axNames.contains rname = true := by
            simpa using hmem
          constructor
          · intro hdef
            rw [hfall]
            simp only [gaeUncert, hvg, hu, haxn, hcontains, hidx, hchild]
            simp [hdef.1, hdef.2]
          · intro hndef dE d1 hds hs
            subst hds
            rw [hfall]
            simp only [gaeUncert, hvg, hu, haxn, hcontains, hidx, hchild]
            rw [if_neg (by simp), if_neg hndef, hs]

/-- Witness for the amended claim C7, exercising two branches: on
`groupExtraChild`, the axis `x` (a direct child, no `x_errors` child,
default good range `0`/`3`) resolves its errors via the
`@uncertainties` entry `xu`; on `groupTrimChildErr`, the axis `x`
declares `last_good = 1`, so its `x_errors` child is returned sliced to
`[0:2]`. -/
theorem c7_axis_errors_resolution_witness :
    (∃ v, NXdataInit groupExtraChild = Except.ok v ∧
      getAxisErrors v "x" =
        Except.ok (some (AxisData.nd (Node.ds ⟨[4], [], [1, 1, 1, 1]⟩)))) ∧
    ∃ v, NXdataInit groupTrimChildErr = Except.ok v ∧
      getAxisErrors v "x" =
        Except.ok (some (AxisData.arr ⟨[2], [], [7, 8]⟩)) := by
  refine ⟨⟨_, rfl, ?_⟩, ⟨_, rfl, ?_⟩⟩
  · have h := (c7_axis_errors_resolution groupExtraChild _ "x" rfl).2
      "x" (Or.inl ⟨⟨Node.ds ⟨[4], [], [0, 1, 2, 3]⟩, rfl⟩, rfl⟩)
      (Node.ds ⟨[4], [], [0, 1, 2, 3]⟩) 4 0 3 rfl rfl rfl rfl
    have hnotds : ∀ e1, Group.child groupExtraChild ("x" ++ "_errors") ≠
        some (Node.ds e1) := by
      intro e1 he
      rw [show Group.child groupExtraChild ("x" ++ "_errors") = none from rfl] at he
      exact Option.noConfusion he
    exact (((h.2 hnotds).2 (AttrVal.ls ["xu"]) ["x"] rfl rfl).2 "xu"
      (Node.ds ⟨[4], [], [1, 1, 1, 1]⟩) (by simp) rfl rfl).1 (by decide)
  · have h2 := (c7_axis_errors_resolution groupTrimChildErr _ "x" rfl).2
      "x" (Or.inl ⟨⟨Node.ds ⟨[4], [("last_good", AttrVal.i 1)], [0, 1, 2, 3]⟩,
        rfl⟩, rfl⟩)
      (Node.ds ⟨[4], [("last_good", AttrVal.i 1)], [0, 1, 2, 3]⟩) 4 0 1
      rfl rfl rfl rfl
    exact (h2.1 ⟨[4], [], [7, 8, 9, 10]⟩ rfl).2 (by decide) ⟨[2], [], [7, 8]⟩ rfl

/-! Each RW translation returns the untouched store together with the
value the pure embedding computes. -/

theorem uncertaintyCheckRW_spec (g : Group) (unc : Option (List String))
    (name : String) (i : Nat) (axis : Dataset) (sc : Bool) (poly : List String) :
    uncertaintyCheckRW unc name i axis sc poly g
      = (uncertaintyCheck g unc name i axis sc poly, g) := by
  simp only [uncertaintyCheckRW, uncertaintyCheck]
  repeat' ((try dsimp only [rwBind, rwPure, rwGetChild]); split)
  all_goals first | rfl | simp_all [rwBind, rwPure, rwGetChild, List.getElem?_eq_none]

theorem axisStepRW_spec (g : Group) (sigShape : List Nat) (signalSize : Nat)
    (unc : Option (List String)) (name : String) (i : Nat) (sc : Bool)
    (poly : List String) :
    axisStepRW sigShape signalSize unc name i sc poly g
      = (axisStep g sigShape signalSize unc name i sc poly, g) := by
  simp only [axisStepRW, axisStep, axisStepTail]
  by_cases hdot : name = "."
  · simp only [if_pos hdot]; rfl
  · simp only [if_neg hdot]
    dsimp only [rwBind, rwPure, rwGetChild]
    cases hc : Group.child g name with
    | none => rfl
    | some nd =>
      cases nd with
      | sub a c => rfl
      | ds axis =>
        dsimp only []
        cases hl : axisLenDs axis with
        | error e => rfl
        | ok axisLen =>
          dsimp only []
          by_cases hsh : axis.shape.length ≠ 1 ∧ axisLen ≠ (signalSize : Int)
          · simp only [if_pos hsh]; rfl
          · simp only [if_neg hsh]
            cases hsz : sizeCheck sigShape signalSize name axisLen sc poly with
            | fail r => rfl
            | cont sc1 poly1 =>
              exact uncertaintyCheckRW_spec g unc name i axis sc1 poly1

theorem checkAxesRW_spec (g : Group) (sigShape : List Nat) (signalSize : Nat)
    (unc : Option (List String)) (names : List String) :
    ∀ (i : Nat) (sc : Bool) (poly : List String),
      checkAxesRW sigShape signalSize unc names i sc poly g
        = (checkAxes g sigShape signalSize unc names i sc poly, g) := by
  induction names with
  | nil => intro i sc poly; rfl
  | cons name rest ih =>
    intro i sc poly
    simp only [checkAxesRW, checkAxes, rwBind, rwPure, axisStepRW_spec]
    cases h : axisStep g sigShape signalSize unc name i sc poly with
    | error e => rfl
    | ok st =>
      cases st with
      | fail r => rfl
      | cont sc1 poly1 => exact ih (i + 1) sc1 poly1

theorem validateErrorsPartRW_spec (g : Group) (sig : Dataset) :
    validateErrorsPartRW sig g = (validateErrorsPart g sig, g) := by
  simp only [validateErrorsPartRW, validateErrorsPart]
  repeat' ((try dsimp only [rwBind, rwPure, rwGetChild]); split)
  all_goals first | rfl | simp_all [rwBind, rwPure, rwGetChild]

theorem interpOfRW_spec (g : Group) (sig : Dataset) :
    interpOfRW sig g = (interpOf g sig, g) := by
  simp only [interpOfRW, interpOf, rwPure, rwGetAttr]
  cases alookup sig.attrs "interpretation" <;> rfl

theorem uncOfRW_spec (g : Group) (sig : Dataset) :
    uncOfRW sig g = (uncOf g sig, g) := by
  simp only [uncOfRW, uncOf, rwBind, rwPure, rwGetAttr]
  cases Group.attr g "uncertainties" <;> rfl

theorem interpCountCheckRW_spec (g : Group) (sig : Dataset) (ndim nNames : Nat) :
    interpCountCheckRW sig ndim nNames g = (interpCountCheck g sig ndim nNames, g) := by
  simp only [interpCountCheckRW, interpCountCheck]
  repeat' ((try dsimp only [rwBind, rwPure]); (try rw [interpOfRW_spec]); split)
  all_goals first
    | rfl
    | (rw [interpOfRW_spec])
    | simp_all [rwBind, rwPure, interpOfRW_spec]

theorem uncertaintiesPartRW_spec (g : Group) (sig : Dataset)
    (axesNames : List String) :
    uncertaintiesPartRW sig axesNames g = (uncertaintiesPart g sig axesNames, g) := by
  simp only [uncertaintiesPartRW, uncertaintiesPart]
  repeat' ((try dsimp only [rwBind, rwPure]); (try rw [uncOfRW_spec]); split)
  all_goals first
    | rfl
    | (rw [uncOfRW_spec])
    | simp_all [rwBind, rwPure, uncOfRW_spec]

theorem validateAxesPartRW_spec (g : Group) (sig : Dataset) :
    validateAxesPartRW sig g = (validateAxesPart g sig, g) := by
  simp only [validateAxesPartRW, validateAxesPart]
  dsimp only [rwBind, rwPure, rwGetAttr]
  cases hA : Group.attr g "axes" with
  | none => exact validateErrorsPartRW_spec g sig
  | some av =>
    dsimp only []
    cases hN : normalizeNames av with
    | error e => rfl
    | ok axesNames =>
      dsimp only []
      by_cases hM : 1 < sig.shape.length ∧ sig.shape.length < axesNames.length
      · simp only [if_pos hM]; rfl
      · simp only [if_neg hM]
        dsimp only [rwBind, rwPure]
        rw [interpCountCheckRW_spec]
        cases hI : interpCountCheck g sig sig.shape.length axesNames.length with
        | error e => rfl
        | ok o =>
          cases o with
          | some r => rfl
          | none =>
            dsimp only [rwBind, rwPure]
            rw [uncertaintiesPartRW_spec]
            cases hU : uncertaintiesPart g sig axesNames with
            | error e => rfl
            | ok o2 =>
              cases o2 with
              | none => rfl
              | some unc =>
                dsimp only [rwBind, rwPure]
                rw [checkAxesRW_spec]
                cases hL : checkAxes g sig.shape (listProd sig.shape) unc
                    axesNames 0 true [] with
                | error e => rfl
                | ok o3 =>
                  cases o3 with
                  | some r => rfl
                  | none => exact validateErrorsPartRW_spec g sig

theorem validateRW_spec (g : Group) : validateRW g = (validate g, g) := by
  simp only [validateRW, validate]
  repeat' ((try dsimp only [rwBind, rwPure, rwGetAttr, rwGetChild]); split)
  all_goals first
    | rfl
    | (rw [validateAxesPartRW_spec])
    | simp_all [rwBind, rwPure, rwGetAttr, rwGetChild, validateAxesPartRW_spec]

theorem mapMRW_spec {α β : Type} (f : α → RW (Except Err β)) (g : Group)
    (f0 : α → Except Err β) (hf : ∀ a, f a g = (f0 a, g)) :
    ∀ l : List α, mapMRW f l g = (mapME f0 l, g) := by
  intro l
  induction l with
  | nil => rfl
  | cons x xs ih =>
    simp only [mapMRW, mapME]
    dsimp only [rwBind, rwPure]
    rw [hf x]
    cases hx : f0 x with
    | error e => rfl
    | ok y =>
      dsimp only [rwBind, rwPure]
      rw [ih]
      cases hxs : mapME f0 xs with
      | error e => rfl
      | ok ys => rfl

theorem resolveAxisNodeRW_spec (g : Group) (name : String) :
    resolveAxisNodeRW name g = (resolveAxisNode g name, g) := by
  simp only [resolveAxisNodeRW, resolveAxisNode]
  by_cases hdot : name = "."
  · simp only [if_pos hdot]; rfl
  · simp only [if_neg hdot]
    dsimp only [rwBind, rwPure, rwGetChild]
    cases hc : Group.child g name <;> rfl

theorem mapM_resolve_spec (g : Group) (l : List String) :
    mapMRW resolveAxisNodeRW l g = (mapME (resolveAxisNode g) l, g) :=
  mapMRW_spec resolveAxisNodeRW g (resolveAxisNode g)
    (fun a => resolveAxisNodeRW_spec g a) l

theorem axesRW_spec (g : Group) (sig : Dataset) :
    axesRW sig g = (axesE g sig, g) := by
  simp only [axesRW, axesE]
  dsimp only [rwBind, rwPure, rwGetAttr]
  cases hA : Group.attr g "axes" with
  | none => rfl
  | some av =>
    try dsimp only [rwBind, rwPure, rwGetAttr, rwGetChild, rwChildren, rwGetGroup]
    cases hN : normalizeNames av with
    | error e => rfl
    | ok axesNames =>
      try dsimp only [rwBind, rwPure, rwGetAttr, rwGetChild, rwChildren, rwGetGroup]
      by_cases hlen : axesNames.length = sig.shape.length
      · simp only [if_pos hlen]
        try dsimp only [rwBind, rwPure]
        rw [mapM_resolve_spec]
        cases hm : mapME (resolveAxisNode g) axesNames with
        | error e => rfl
        | ok axs => rfl
      · simp only [if_neg hlen]
        dsimp only [rwBind, rwPure]
        rw [interpOfRW_spec]
        cases hi : interpOf g sig with
        | none =>
          try dsimp only [rwBind, rwPure, rwGetAttr, rwGetChild, rwChildren, rwGetGroup]
          rw [mapM_resolve_spec]
          cases hm : mapME (resolveAxisNode g) axesNames with
          | error e => rfl
          | ok axs => rfl
        | some iv =>
          cases iv with
          | s s =>
            try dsimp only [rwBind, rwPure, rwGetAttr, rwGetChild, rwChildren, rwGetGroup]
            cases hd : INTERPDIM s with
            | none => rfl
            | some d =>
              try dsimp only [rwBind, rwPure, rwGetAttr, rwGetChild, rwChildren, rwGetGroup]
              by_cases hdl : axesNames.length ≠ d
              · simp only [if_pos hdl]; rfl
              · simp only [if_neg hdl]
                dsimp only [rwBind, rwPure]
                rw [mapM_resolve_spec]
                cases hm : mapME (resolveAxisNode g) axesNames with
                | error e => rfl
                | ok l => rfl
          | ls l => rfl
          | i n => rfl

theorem axesDatasetNamesRW_spec (g : Group) (sig : Dataset) (sig1D : Bool) :
    axesDatasetNamesRW sig sig1D g = (axesDatasetNamesE g sig sig1D, g) := by
  simp only [axesDatasetNamesRW, axesDatasetNamesE]
  dsimp only [rwBind, rwPure, rwGetAttr]
  cases hA : (match Group.attr g "axes" with
      | some v => some v
      | none => alookup sig.attrs "axes") with
  | none => rfl
  | some av =>
    try dsimp only [rwBind, rwPure, rwGetAttr, rwGetChild, rwChildren, rwGetGroup]
    cases hN : normalizeNames av with
    | error e => rfl
    | ok ns =>
      try dsimp only [rwBind, rwPure, rwGetAttr, rwGetChild, rwChildren, rwGetGroup]
      by_cases hlen : (ns.map (fun n => if n = "." then none else some n)).length
          = sig.shape.length
      · simp only [if_pos hlen]; rfl
      · simp only [if_neg hlen]
        dsimp only [rwBind, rwPure]
        rw [axesRW_spec]
        cases hx : axesE g sig with
        | error e => rfl
        | ok axs =>
          try dsimp only [rwBind, rwPure, rwGetAttr, rwGetChild, rwChildren, rwGetGroup]
          cases hs : computeIsScatter sig1D sig.shape axs with
          | error e => rfl
          | ok sc =>
            try dsimp only [rwBind, rwPure, rwGetAttr, rwGetChild, rwChildren, rwGetGroup]
            by_cases hsc : sc = true ∧ sig.shape.length = 1
            · simp only [if_pos hsc]; rfl
            · simp only [if_neg hsc]
              dsimp only [rwBind, rwPure]
              rw [interpOfRW_spec]
              cases hi : interpOf g sig with
              | none => rfl
              | some iv =>
                cases iv with
                | s s =>
                  try dsimp only [rwBind, rwPure, rwGetAttr, rwGetChild, rwChildren, rwGetGroup]
                  cases hd : INTERPDIM s with
                  | none => rfl
                  | some d =>
                    try dsimp only [rwBind, rwPure, rwGetAttr, rwGetChild, rwChildren, rwGetGroup]
                    by_cases hdl : (ns.map
                        (fun n => if n = "." then none else some n)).length ≠ d
                    · simp only [if_pos hdl]; rfl
                    · simp only [if_neg hdl]; rfl
                | ls l => rfl
                | i n => rfl

theorem axesNamesFromRW_spec (g : Group) (adn : List (Option String)) :
    axesNamesFromRW adn g = (axesNamesFrom g adn, g) := by
  simp only [axesNamesFromRW, axesNamesFrom]
  refine mapMRW_spec _ g _ ?_ adn
  intro a
  cases a with
  | none => rfl
  | some n =>
    dsimp only [rwBind, rwPure, rwGetChild]
    cases hc : Group.child g n with
    | none => rfl
    | some node =>
      try dsimp only [rwBind, rwPure, rwGetAttr, rwGetChild, rwChildren, rwGetGroup]
      cases alookup (Node.nattrs node) "long_name" <;> rfl

theorem errorsRW_run (g : Group) : errorsRW g = (Group.child g "errors", g) := by
  simp only [errorsRW]
  dsimp only [rwBind, rwPure, rwGetChild]
  cases Group.child g "errors" <;> rfl

theorem gaeUncertRW_spec (v : NXview) (axisName : String) (fg lg : Int)
    (lenAxis : Nat) :
    gaeUncertRW v.signal axisName fg lg lenAxis v.group
      = (gaeUncert v axisName fg lg lenAxis, v.group) := by
  simp only [gaeUncertRW, gaeUncert, axesAttrOf]
  dsimp only [rwBind, rwPure, rwGetAttr, rwGetChild]
  rw [uncOfRW_spec]
  cases hu : uncOf v.group v.signal with
  | none => rfl
  | some u =>
    try dsimp only [rwBind, rwPure, rwGetAttr, rwGetChild, rwChildren, rwGetGroup]
    cases hax : axesNamesListForGAE (match Group.attr v.group "axes" with
        | some a => some a
        | none => alookup v.signal.attrs "axes") with
    | error e => rfl
    | ok axNames =>
      try dsimp only [rwBind, rwPure, rwGetAttr, rwGetChild, rwChildren, rwGetGroup]
      by_cases hmem : axNames.contains axisName = false
      · simp only [if_pos hmem]; rfl
      · simp only [if_neg hmem]
        cases hui : uncIndex u (firstIdx axNames axisName) with
        | error e => rfl
        | ok en =>
          dsimp only [rwBind, rwPure, rwGetChild]
          cases hc : Group.child v.group en with
          | none => rfl
          | some nd =>
            try dsimp only [rwBind, rwPure, rwGetAttr, rwGetChild, rwChildren, rwGetGroup]
            by_cases hfg : fg = 0 ∧ lg = (lenAxis : Int) - 1
            · simp only [if_pos hfg]; rfl
            · simp only [if_neg hfg]
              cases nd with
              | sub a c => rfl
              | ds d =>
                try dsimp only [rwBind, rwPure, rwGetChild]
                cases hs : sliceDataset d fg (lg + 1) with
                | error e => rfl
                | ok d1 => rfl

theorem gaeErrorsChildRW_spec (v : NXview) (axisName : String) (fg lg : Int)
    (lenAxis : Nat) :
    gaeErrorsChildRW v.signal axisName fg lg lenAxis v.group
      = (gaeErrorsChild v axisName fg lg lenAxis, v.group) := by
  simp only [gaeErrorsChildRW, gaeErrorsChild]
  dsimp only [rwBind, rwPure, rwGetChild]
  cases hc : Group.child v.group (axisName ++ "_errors") with
  | none => exact gaeUncertRW_spec v axisName fg lg lenAxis
  | some nd =>
    cases nd with
    | sub a c => exact gaeUncertRW_spec v axisName fg lg lenAxis
    | ds e =>
      try dsimp only [rwBind, rwPure, rwGetAttr, rwGetChild, rwChildren, rwGetGroup]
      by_cases hfg : fg ≠ 0 ∨ lg ≠ (lenAxis : Int) - 1
      · simp only [if_pos hfg]
        cases hs : sliceDataset e fg (lg + 1) with
        | error e1 => rfl
        | ok d1 => rfl
      · simp only [if_neg hfg]; rfl

theorem gaeResolvedRW_spec (v : NXview) (axisName : String) :
    gaeResolvedRW v.signal axisName v.group
      = (gaeResolved v axisName, v.group) := by
  simp only [gaeResolvedRW, gaeResolved]
  dsimp only [rwBind, rwPure, rwGetChild]
  cases hc : Group.child v.group axisName with
  | none => rfl
  | some axNode =>
    try dsimp only [rwBind, rwPure, rwGetAttr, rwGetChild, rwChildren, rwGetGroup]
    cases hl : pyLen axNode with
    | error e => rfl
    | ok lenAxis =>
      try dsimp only [rwBind, rwPure, rwGetAttr, rwGetChild, rwChildren, rwGetGroup]
      cases hf : getIntAttrD (Node.nattrs axNode) "first_good" 0 with
      | error e => rfl
      | ok fg =>
        try dsimp only [rwBind, rwPure, rwGetAttr, rwGetChild, rwChildren, rwGetGroup]
        cases hg2 : getIntAttrD (Node.nattrs axNode) "last_good"
            ((lenAxis : Int) - 1) with
        | error e => rfl
        | ok lg => exact gaeErrorsChildRW_spec v axisName fg lg lenAxis

theorem getAxisErrorsRW_spec (v : NXview) (axisName0 : String) :
    getAxisErrorsRW v.signal axisName0 v.group
      = (getAxisErrors v axisName0, v.group) := by
  simp only [getAxisErrorsRW, getAxisErrors]
  dsimp only [rwBind, rwPure, rwGetChild, rwChildren]
  cases hc : Group.child v.group axisName0 with
  | some nd => exact gaeResolvedRW_spec v axisName0
  | none =>
    try dsimp only [rwBind, rwPure, rwGetAttr, rwGetChild, rwChildren, rwGetGroup]
    cases ha : findLongNameAlias v.group.children axisName0 with
    | some k => exact gaeResolvedRW_spec v k
    | none => exact gaeResolvedRW_spec v axisName0

theorem NXdataInitRW_spec (g : Group) : NXdataInitRW g = (NXdataInit g, g) := by
  simp only [NXdataInitRW, NXdataInit]
  dsimp only [rwBind, rwPure, rwGetAttr, rwGetChild, rwGetGroup]
  rw [validateRW_spec]
  cases hv : validate g with
  | error e => rfl
  | ok o =>
    cases o with
    | some r => rfl
    | none =>
      try dsimp only [rwBind, rwPure, rwGetAttr, rwGetChild, rwChildren, rwGetGroup]
      cases hs : Group.attr g "signal" with
      | none => rfl
      | some sv =>
        cases sv with
        | s sname =>
          try dsimp only [rwBind, rwPure, rwGetAttr, rwGetChild, rwChildren, rwGetGroup]
          cases hc : Group.child g sname with
          | none => rfl
          | some nd =>
            cases nd with
            | sub a c => rfl
            | ds sig =>
              dsimp only [rwBind, rwPure]
              rw [axesDatasetNamesRW_spec]
              cases had : axesDatasetNamesE g sig (decide (sig.shape.length = 1)) with
              | error e => rfl
              | ok pr =>
                cases pr with
                | mk adn cache =>
                  dsimp only [rwBind, rwPure]
                  rw [axesNamesFromRW_spec]
                  cases han : axesNamesFrom g adn with
                  | error e => rfl
                  | ok anames =>
                    dsimp only [rwBind, rwPure]
                    rw [axesRW_spec]
                    cases hax : axesE g sig with
                    | error e => rfl
                    | ok axs => rfl
        | ls l => rfl
        | i n => rfl

/-- Claim C8: no operation of the engine mutates the underlying group
store.  In the state-passing model `RW` — in which writes are
expressible (`rwSetAttr`, `rwSetChild`) but the engine's translations
use only the read primitives — the validator, the view constructor and
every view accessor (`axes`, `axes_dataset_names`, `axes_names`,
`get_axis_errors`, `errors`, the scatter classifiers) are read-only:
run on any store, each returns that store (all attributes and children,
hence also the child datasets) unchanged, and its result agrees with
the pure embedding. -/
theorem c8_engine_reads_only :
    ReadOnly validateRW ∧
    ReadOnly NXdataInitRW ∧
    (∀ sig : Dataset, ReadOnly (axesRW sig)) ∧
    (∀ (sig : Dataset) (b : Bool), ReadOnly (axesDatasetNamesRW sig b)) ∧
    (∀ adn : List (Option String), ReadOnly (axesNamesFromRW adn)) ∧
    ReadOnly errorsRW ∧
    (∀ (sig : Dataset) (a : String), ReadOnly (getAxisErrorsRW sig a)) ∧
    (∀ v : NXview, ReadOnly (isScatterRW v) ∧ ReadOnly (isXYValueScatterRW v)) ∧
    (∀ g : Group, (validateRW g).1 = validate g ∧ (NXdataInitRW g).1 = NXdataInit g) ∧
    (∀ (g : Group) (sig : Dataset) (b : Bool),
      (axesRW sig g).1 = axesE g sig ∧
        (axesDatasetNamesRW sig b g).1 = axesDatasetNamesE g sig b) ∧
    (∀ v : NXview, (errorsRW v.group).1 = NXview.errorsOf v ∧
      ∀ a : String, (getAxisErrorsRW v.signal a v.group).1 = getAxisErrors v a) := by
  refine ⟨fun g => ?_, fun g => ?_, fun sig g => ?_, fun sig b g => ?_,
    fun adn g => ?_, fun g => ?_, fun sig a g => ?_,
    fun v => ⟨fun g => rfl, fun g => rfl⟩, fun g => ⟨?_, ?_⟩,
    fun g sig b => ⟨?_, ?_⟩, fun v => ⟨?_, fun a => ?_⟩⟩
  · rw [validateRW_spec]
  · rw [NXdataInitRW_spec]
  · rw [axesRW_spec]
  · rw [axesDatasetNamesRW_spec]
  · rw [axesNamesFromRW_spec]
  · rw [errorsRW_run]
  · exact congrArg Prod.snd
      (getAxisErrorsRW_spec ⟨g, "", sig, false, false, false, false, [], [], [], none⟩ a)
  · rw [validateRW_spec]
  · rw [NXdataInitRW_spec]
  · rw [axesRW_spec]
  · rw [axesDatasetNamesRW_spec]
  · rw [errorsRW_run]
    simp only [NXview.errorsOf]
    cases Group.child v.group "errors" <;> rfl
  · rw [getAxisErrorsRW_spec]

end NX
